import Mathlib

/-!
# Self-node remediation: safe-reboot-time calculator, health decision, fake watchdog

A shallow embedding of `pkg/reboot/calculator.go`, `pkg/master/manager.go`,
`pkg/peers/response.go`, `pkg/watchdog/fake.go` and of `Reconcile` and
`updateDsTolerations` in `controllers/selfnoderemediationconfig_controller.go`.

* `time.Duration` and `int` are 64-bit signed integers; they are modelled as `Int`
  with every arithmetic result reduced by `wrapInt64` (two's complement wrap-around).
* Instants (`time.Time`, `metav1.Time`) are modelled as a number of nanoseconds.
* The Kubernetes client is modelled by the `Cluster` record: what the two `List`
  calls return, whether `Status().Patch` fails, and the current time. A patched resource
  holds its times at whole seconds, as `metav1.Time` is serialised (`storedCopy`).
* Logging is dropped; the warning event is kept as a flag of the result.
* A function that can panic returns an `Option`; `none` is the panic.
* The probes of the master manager and the random draw are inputs (`Probes`).
-/

namespace SelfNodeRemediation

/-! ## Machine integers -/

/-- Smallest `int64`. -/
def minInt64 : Int := -9223372036854775808

/-- Largest `int64`. -/
def maxInt64 : Int := 9223372036854775807

/-- Two's complement reduction of an integer to the `int64` range. -/
def wrapInt64 (x : Int) : Int := (x + 9223372036854775808) % 18446744073709551616 - 9223372036854775808

/-- An integer that is representable as an `int64`. -/
def inInt64 (x : Int) : Prop := minInt64 ≤ x ∧ x ≤ maxInt64

instance (x : Int) : Decidable (inInt64 x) := by unfold inInt64; infer_instance

/-- Go `+` on `int64` / `time.Duration`. -/
def add64 (a b : Int) : Int := wrapInt64 (a + b)

/-- Go `*` on `int64` / `time.Duration`. -/
def mul64 (a b : Int) : Int := wrapInt64 (a * b)

/-- The constant `time.Second`, in nanoseconds. -/
def Second : Int := 1000000000

/-! ## Constants of `calculator.go` -/

/-- The constant `MaxTimeForNoPeersResponse = 30 * time.Second`. -/
def MaxTimeForNoPeersResponse : Int := 30 * Second

/-- The constant `MinNodesNumberInBatch`. -/
def MinNodesNumberInBatch : Int := 3

/-- The constant `MaxBatchesAfterFirst`. -/
def MaxBatchesAfterFirst : Int := 10

/-- The variable `timeBeforeAssumingRecentUpdate = time.Second * 15`. -/
def timeBeforeAssumingRecentUpdate : Int := Second * 15

/-! ## Data model -/

/-- The type `metav1.ConditionStatus`. -/
inductive ConditionStatus where
  | ConditionTrue
  | ConditionFalse
  | ConditionUnknown
  deriving DecidableEq, Repr

/-- The type `metav1.Condition`; `type` is the Go field `Type`, and a `LastTransitionTime`
of `none` is the zero time. -/
structure Condition where
  type : String
  Status : ConditionStatus
  ObservedGeneration : Int
  LastTransitionTime : Option Int
  Reason : String
  Message : String
  deriving DecidableEq, Repr

/-- The field of `SelfNodeRemediationConfigSpec` (`SelfNodeConfigSpec` in
`api/v1alpha1`) the calculator reads, an `int`. -/
structure SelfNodeRemediationConfigSpec where
  SafeTimeToAssumeNodeRebootedSeconds : Int
  deriving DecidableEq, Repr

/-- Modelled from the spec: the declaration of the status fields of the configuration
resource is not among the sources. The persisted state layout of the specification has an
integer `minSafeTimeToAssumeNodeRebootedSeconds`, a timestamp `lastUpdateTime` (a pointer
in `calculator.go`, `none` when unset) and the list of conditions. -/
structure SelfNodeRemediationConfigStatus where
  MinSafeTimeToAssumeNodeRebootedSeconds : Int
  LastUpdateTime : Option Int
  Conditions : List Condition
  deriving DecidableEq, Repr

/-- The resource `SelfNodeRemediationConfig`. -/
structure SelfNodeRemediationConfig where
  Name : String
  Spec : SelfNodeRemediationConfigSpec
  Status : SelfNodeRemediationConfigStatus
  deriving DecidableEq, Repr

/-- Modelled from the spec: the declaration of the constant
`v1alpha1.SafeTimeToAssumeNodeRebootedOverriddenConditionType` is not among the sources;
the spec names the condition type "safe-time-overridden". No result depends on the text. -/
def SafeTimeToAssumeNodeRebootedOverriddenConditionType : String := "safe-time-overridden"

/-- A node of the roster, `v1.Node`: its name and labels. -/
structure Node where
  Name : String
  Labels : List (String × String)
  deriving DecidableEq, Repr

/-- Modelled from the spec: the declaration of the interface `watchdog.Watchdog` is not
among the sources. The calculator only calls `GetTimeout()`, which returns the timeout
reported at start; a watchdog is the duration that call returns. -/
structure Watchdog where
  GetTimeout : Int
  deriving DecidableEq, Repr

/-- What the Kubernetes client answers during one call of the calculator:
`nodes` is the result of listing the nodes that carry the worker-role label,
`configs` the result of listing the configuration resources, `patchError` the error
(if any) `Status().Patch` returns, `now` the value of `time.Now()`. -/
structure Cluster where
  nodes : Except String (List Node)
  configs : Except String (List SelfNodeRemediationConfig)
  patchError : Option String
  now : Int

/-- The struct `safeTimeCalculator` (logger, client and recorder are external). -/
structure safeTimeCalculator where
  timeToAssumeNodeRebooted : Int
  minTimeToAssumeNodeRebooted : Int
  wd : Option Watchdog
  maxErrorThreshold : Int
  apiCheckInterval : Int
  apiServerTimeout : Int
  peerDialTimeout : Int
  peerRequestTimeout : Int
  highestCalculatedBatchNumber : Int
  isAgent : Bool
  deriving DecidableEq, Repr

/-- The constructor `NewAgentSafeTimeCalculator`. -/
def NewAgentSafeTimeCalculator (wd : Option Watchdog) (maxErrorThreshold : Int)
    (apiCheckInterval apiServerTimeout peerDialTimeout peerRequestTimeout
      timeToAssumeNodeRebooted : Int) : safeTimeCalculator :=
  { timeToAssumeNodeRebooted := timeToAssumeNodeRebooted
    minTimeToAssumeNodeRebooted := 0
    wd := wd
    maxErrorThreshold := maxErrorThreshold
    apiCheckInterval := apiCheckInterval
    apiServerTimeout := apiServerTimeout
    peerDialTimeout := peerDialTimeout
    peerRequestTimeout := peerRequestTimeout
    highestCalculatedBatchNumber := 0
    isAgent := true }

/-- The constructor `NewManagerSafeTimeCalculator`. -/
def NewManagerSafeTimeCalculator : safeTimeCalculator :=
  { timeToAssumeNodeRebooted := 0
    minTimeToAssumeNodeRebooted := 0
    wd := none
    maxErrorThreshold := 0
    apiCheckInterval := 0
    apiServerTimeout := 0
    peerDialTimeout := 0
    peerRequestTimeout := 0
    highestCalculatedBatchNumber := 0
    isAgent := false }

/-! ## `calcNumOfBatches` -/

/-- The method `calcNumOfBatches`: the new calculator state and the returned batch count,
given what the worker-roster query answered. -/
def calcNumOfBatches (s : safeTimeCalculator) (roster : Except String (List Node)) :
    safeTimeCalculator × Int :=
  let maxNumberOfBatches := add64 MaxBatchesAfterFirst 1
  match roster with
  | .error _ => (s, maxNumberOfBatches)
  | .ok items =>
    let workerNodesCount : Int := items.length
    let numberOfBatches : Int :=
      if workerNodesCount > mul64 maxNumberOfBatches MinNodesNumberInBatch then
        maxNumberOfBatches
      else
        let q := Int.tdiv workerNodesCount MinNodesNumberInBatch
        if Int.tmod workerNodesCount MinNodesNumberInBatch ≠ 0 then add64 q 1 else q
    let s1 :=
      if s.highestCalculatedBatchNumber < numberOfBatches then
        { s with highestCalculatedBatchNumber := numberOfBatches }
      else s
    (s1, s1.highestCalculatedBatchNumber)

/-! ## Status conditions (`k8s.io/apimachinery/pkg/api/meta`) -/

/-- The library function `meta.FindStatusCondition`: the first condition of the type. -/
def FindStatusCondition (conditions : List Condition) (conditionType : String) :
    Option Condition :=
  conditions.find? (fun c => c.type == conditionType)

/-- The update `meta.SetStatusCondition` applies to the condition it found. -/
def updateCondition (existing newCondition : Condition) (now : Int) : Condition :=
  let e1 :=
    if existing.Status ≠ newCondition.Status then
      { existing with
        Status := newCondition.Status
        LastTransitionTime :=
          match newCondition.LastTransitionTime with
          | some t => some t
          | none => some now }
    else existing
  { e1 with
    Reason := newCondition.Reason
    Message := newCondition.Message
    ObservedGeneration := newCondition.ObservedGeneration }

/-- The library function `meta.SetStatusCondition`: a condition of a new type is appended
(stamped with the current time when it carries none), the first condition of an existing
type is updated in place. -/
def SetStatusCondition (conditions : List Condition) (newCondition : Condition) (now : Int) :
    List Condition :=
  match conditions with
  | [] =>
    [match newCondition.LastTransitionTime with
     | some _ => newCondition
     | none => { newCondition with LastTransitionTime := some now }]
  | c :: rest =>
    if c.type == newCondition.type then updateCondition c newCondition now :: rest
    else c :: SetStatusCondition rest newCondition now

/-! ## Reading the configuration -/

/-- The method `getConfig`: the first configuration resource of the list. -/
def getConfig (c : Cluster) : Except String SelfNodeRemediationConfig :=
  match c.configs with
  | .error err => .error err
  | .ok items =>
    match items with
    | [] => .error "SNR config not found"
    | config :: _ => .ok config

/-- The method `getMinSafeTimeSecFromConfig`. -/
def getMinSafeTimeSecFromConfig (config : SelfNodeRemediationConfig) : Except String Int :=
  let minTimeSec := config.Status.MinSafeTimeToAssumeNodeRebootedSeconds
  if minTimeSec > 0 then .ok (mul64 minTimeSec Second)
  else .error "failed getting MinSafeTimeToAssumeNodeRebootedSeconds, value isn't initialized"

/-- The method `GetTimeToAssumeNodeRebooted`: the calculator after the call, the returned
duration and the returned error. -/
def GetTimeToAssumeNodeRebooted (s : safeTimeCalculator) (c : Cluster) :
    safeTimeCalculator × Int × Option String :=
  let larger (s1 : safeTimeCalculator) (minTime : Int) : safeTimeCalculator × Int × Option String :=
    if s1.timeToAssumeNodeRebooted < minTime then (s1, minTime, none)
    else (s1, s1.timeToAssumeNodeRebooted, none)
  if !s.isAgent then
    match getConfig c with
    | .error err => (s, 0, some err)
    | .ok config =>
      match getMinSafeTimeSecFromConfig config with
      | .error err => (s, 0, some err)
      | .ok minTime =>
        larger
          { s with
            timeToAssumeNodeRebooted :=
              mul64 config.Spec.SafeTimeToAssumeNodeRebootedSeconds Second }
          minTime
  else larger s s.minTimeToAssumeNodeRebooted

/-- The method `IsAgent`. -/
def IsAgent (s : safeTimeCalculator) : Bool := s.isAgent

/-! ## Persisting the floor -/

/-- A time as the resource holds it: `metav1.Time` is serialised as RFC3339, which keeps
whole seconds and drops the nanoseconds. -/
def truncateToSecond (t : Int) : Int := t - t % Second

/-- A condition as the resource holds it: its `LastTransitionTime` at whole seconds. -/
def serializeCondition (condition : Condition) : Condition :=
  { condition with LastTransitionTime := condition.LastTransitionTime.map truncateToSecond }

/-- The configuration as the resource holds it after it was sent to the API server: the
times of its status (`LastUpdateTime`, the `LastTransitionTime` of each condition) at
whole seconds. -/
def storedCopy (config : SelfNodeRemediationConfig) : SelfNodeRemediationConfig :=
  { config with
    Status := { config.Status with
      LastUpdateTime := config.Status.LastUpdateTime.map truncateToSecond
      Conditions := config.Status.Conditions.map serializeCondition } }

/-- The cluster after a successful `Status().Patch`: the first configuration resource is
replaced by the patched one as the resource holds it, with its times at whole seconds. -/
def Cluster.patched (c : Cluster) (config : SelfNodeRemediationConfig) : Cluster :=
  match c.configs with
  | .ok (_ :: rest) => { c with configs := .ok (storedCopy config :: rest) }
  | _ => c

/-- The outcome of `manageSafeRebootTimeInConfiguration`: the returned error, the object
`config` as it was compared with the fetched copy and, when that differs, stamped and
passed to `Status().Patch` (`none` when it could not be fetched), whether `Status().Patch`
was called, whether the warning event was recorded, and the cluster afterwards. -/
structure ManageResult where
  err : Option String
  config : Option SelfNodeRemediationConfig
  patchIssued : Bool
  warningEvent : Bool
  cluster : Cluster

/-- The condition written when the configured safe time is below the floor. -/
def overriddenCondition : Condition :=
  { type := SafeTimeToAssumeNodeRebootedOverriddenConditionType
    Status := ConditionStatus.ConditionTrue
    ObservedGeneration := 0
    LastTransitionTime := none
    Reason := "SafeTimeIsInvalid"
    Message := "Spec.SafeTimeToAssumeNodeRebootedSeconds is overridden because it's invalid, its value is lower than the automatically minimum calculated value at Status.MinSafeTimeToAssumeNodeRebootedSeconds" }

/-- The condition written when the configured safe time is not below the floor. -/
def validCondition : Condition :=
  { type := SafeTimeToAssumeNodeRebootedOverriddenConditionType
    Status := ConditionStatus.ConditionFalse
    ObservedGeneration := 0
    LastTransitionTime := none
    Reason := "SafeTimeIsValid"
    Message := "Spec.SafeTimeToAssumeNodeRebootedSeconds is valid because it isn't lower than the automatically minimum calculated value at Status.MinSafeTimeToAssumeNodeRebootedSeconds" }

/-- The local `isUpdatedRecently` of `manageSafeRebootTimeInConfiguration`:
`LastUpdateTime != nil && LastUpdateTime.Add(timeBeforeAssumingRecentUpdate).After(time.Now())`. -/
def isUpdatedRecently (config : SelfNodeRemediationConfig) (now : Int) : Bool :=
  match config.Status.LastUpdateTime with
  | none => false
  | some t => decide (t + timeBeforeAssumingRecentUpdate > now)

/-- The step "Use safer value" of `manageSafeRebootTimeInConfiguration`: `config` after
the stored floor was overwritten with `minTimeSec` or kept. -/
def useSaferValue (minTimeSec : Int) (config : SelfNodeRemediationConfig) (now : Int) :
    SelfNodeRemediationConfig :=
  let prevMinRebootTimeSec := config.Status.MinSafeTimeToAssumeNodeRebootedSeconds
  if minTimeSec > prevMinRebootTimeSec ∨
      (!isUpdatedRecently config now ∧ prevMinRebootTimeSec ≠ minTimeSec) then
    { config with
      Status := { config.Status with MinSafeTimeToAssumeNodeRebootedSeconds := minTimeSec } }
  else config

/-- The guard of the step "Manage condition":
`config.Spec.SafeTimeToAssumeNodeRebootedSeconds > 0 &&
minTimeSec > config.Spec.SafeTimeToAssumeNodeRebootedSeconds`. -/
def isSafeTimeOverridden (minTimeSec : Int) (config : SelfNodeRemediationConfig) : Bool :=
  decide (config.Spec.SafeTimeToAssumeNodeRebootedSeconds > 0 ∧
    minTimeSec > config.Spec.SafeTimeToAssumeNodeRebootedSeconds)

/-- The step "Manage condition" of `manageSafeRebootTimeInConfiguration`: `config` after
the warning condition was set or cleared. -/
def manageCondition (minTimeSec : Int) (config : SelfNodeRemediationConfig) (now : Int) :
    SelfNodeRemediationConfig :=
  { config with
    Status := { config.Status with
      Conditions :=
        SetStatusCondition config.Status.Conditions
          (if isSafeTimeOverridden minTimeSec config then overriddenCondition
            else validCondition) now } }

/-- The last step of `manageSafeRebootTimeInConfiguration`:
`config.Status.LastUpdateTime = &metav1.Time(time.Now())`. -/
def stampLastUpdateTime (config : SelfNodeRemediationConfig) (now : Int) :
    SelfNodeRemediationConfig :=
  { config with Status := { config.Status with LastUpdateTime := some now } }

/-- The method `manageSafeRebootTimeInConfiguration`. The conversion
`int(minTime.Seconds())` goes through `float64`; it is the parameter `toSeconds`. -/
def manageSafeRebootTimeInConfiguration (toSeconds : Int → Int) (c : Cluster) (minTime : Int) :
    ManageResult :=
  let minTimeSec := toSeconds minTime
  match getConfig c with
  | .error err =>
    { err := some err, config := none, patchIssued := false, warningEvent := false, cluster := c }
  | .ok orgConfig =>
    let config1 := useSaferValue minTimeSec orgConfig c.now
    let config2 := manageCondition minTimeSec config1 c.now
    if config2 ≠ orgConfig then
      let config3 := stampLastUpdateTime config2 c.now
      match c.patchError with
      | some err =>
        { err := some err, config := some config3, patchIssued := true,
          warningEvent := isSafeTimeOverridden minTimeSec config1, cluster := c }
      | none =>
        { err := none, config := some config3, patchIssued := true,
          warningEvent := isSafeTimeOverridden minTimeSec config1, cluster := c.patched config3 }
    else
      { err := none, config := some config2, patchIssued := false,
        warningEvent := isSafeTimeOverridden minTimeSec config1, cluster := c }

/-! ## Computing the floor -/

/-- The outcome of `calcMinTimeAssumeRebooted` (and of `Start`): the calculator and the
cluster afterwards and the returned error. -/
structure CalcResult where
  calculator : safeTimeCalculator
  cluster : Cluster
  err : Option String

/-- The method `calcMinTimeAssumeRebooted`. -/
def calcMinTimeAssumeRebooted (toSeconds : Int → Int) (s : safeTimeCalculator) (c : Cluster) :
    CalcResult :=
  if !s.isAgent then { calculator := s, cluster := c, err := none }
  else
    let minTime0 :=
      add64 (mul64 (add64 s.apiCheckInterval s.apiServerTimeout) s.maxErrorThreshold)
        MaxTimeForNoPeersResponse
    let (s1, batches) := calcNumOfBatches s c.nodes
    let minTime1 := add64 minTime0 (mul64 batches (add64 s1.peerDialTimeout s1.peerRequestTimeout))
    let minTime2 :=
      match s1.wd with
      | some wd => add64 minTime1 wd.GetTimeout
      | none => minTime1
    let minTime3 := add64 minTime2 (mul64 15 Second)
    let s2 := { s1 with minTimeToAssumeNodeRebooted := minTime3 }
    let r := manageSafeRebootTimeInConfiguration toSeconds c minTime3
    { calculator := s2, cluster := r.cluster, err := r.err }

/-- The method `Start`. -/
def Start (toSeconds : Int → Int) (s : safeTimeCalculator) (c : Cluster) : CalcResult :=
  calcMinTimeAssumeRebooted toSeconds s c

/-- The value of `int(d.Seconds())` where the `float64` computation
`float64(d/Second) + float64(d%Second)/1e9` is exact, as it is for a whole number of
seconds or of half seconds: the quotient by `Second`, truncated toward zero. It is used to
evaluate the calculator on concrete inputs. -/
def truncSeconds (d : Int) : Int := Int.tdiv d Second

/-! ## Definitions of the specification -/

/-- The timeout the attached watchdog reports, `0` when no watchdog is attached. -/
def watchdogTimeout (s : safeTimeCalculator) : Int :=
  match s.wd with
  | some wd => wd.GetTimeout
  | none => 0

/-- The closed-form sum of the specification for the floor, over the integers, for a
batch count `b`. -/
def closedFormFloor (s : safeTimeCalculator) (b : Int) : Int :=
  (s.apiCheckInterval + s.apiServerTimeout) * s.maxErrorThreshold + 30 * Second
    + b * (s.peerDialTimeout + s.peerRequestTimeout) + watchdogTimeout s + 15 * Second

/-- The batch count of the specification for `W` worker nodes: the maximum `11` above
`33` workers, `ceil(W / 3)` otherwise. -/
def specBatches (W : Nat) : Int :=
  if W > 33 then 11 else ⌈(W : ℚ) / 3⌉

/-- A configuration the specification calls valid: no duration and no threshold is
negative. -/
def validConfiguration (s : safeTimeCalculator) : Prop :=
  0 ≤ s.apiCheckInterval ∧ 0 ≤ s.apiServerTimeout ∧ 0 ≤ s.maxErrorThreshold ∧
    0 ≤ s.peerDialTimeout ∧ 0 ≤ s.peerRequestTimeout ∧ 0 ≤ watchdogTimeout s

instance (s : safeTimeCalculator) : Decidable (validConfiguration s) := by
  unfold validConfiguration; infer_instance

/-! ## Concrete inputs -/

/-- A worker node. -/
def exampleNode : Node := { Name := "worker", Labels := [("node-role.kubernetes.io/worker", "")] }

/-- An agent with the default configuration (check interval 15s, timeouts 5s, threshold 3,
configured safe time 180s) and a watchdog that reports 1s. -/
def exampleAgent : safeTimeCalculator :=
  NewAgentSafeTimeCalculator (some { GetTimeout := 1000000000 }) 3 15000000000 5000000000
    5000000000 5000000000 180000000000

/-- The agent `exampleAgent` with an error threshold of 500000000. -/
def largeThresholdAgent : safeTimeCalculator :=
  { exampleAgent with maxErrorThreshold := 500000000 }

/-- A configuration resource on which no floor was stored yet. -/
def exampleConfig : SelfNodeRemediationConfig :=
  { Name := "self-node-remediation-config"
    Spec := { SafeTimeToAssumeNodeRebootedSeconds := 180 }
    Status := { MinSafeTimeToAssumeNodeRebootedSeconds := 0, LastUpdateTime := none,
                Conditions := [] } }

/-- A cluster with five workers and the configuration `exampleConfig`. -/
def exampleCluster : Cluster :=
  { nodes := .ok (List.replicate 5 exampleNode)
    configs := .ok [exampleConfig]
    patchError := none
    now := 1700000000000000000 }

/-- The cluster `exampleCluster` when the worker-roster query fails. -/
def rosterFailureCluster : Cluster :=
  { exampleCluster with nodes := .error "connection refused" }

/-- The agent `exampleAgent` with a check interval of 20s instead of 15s. -/
def slowerAgent : safeTimeCalculator :=
  { exampleAgent with apiCheckInterval := 20000000000 }

/-- The values returned by consecutive calls of `calcNumOfBatches` on one calculator, one
call for each answer of the worker-roster query. -/
def calcNumOfBatchesCalls (s : safeTimeCalculator) :
    List (Except String (List Node)) → List Int
  | [] => []
  | roster :: rest =>
    (calcNumOfBatches s roster).2 :: calcNumOfBatchesCalls (calcNumOfBatches s roster).1 rest

/-- The configuration `exampleConfig` after an agent stored the floor 126s. -/
def persistedConfig : SelfNodeRemediationConfig :=
  { exampleConfig with
    Status := { MinSafeTimeToAssumeNodeRebootedSeconds := 126
                LastUpdateTime := some 1700000000000000000
                Conditions := [] } }

/-- The cluster `exampleCluster` with the configuration `persistedConfig`. -/
def persistedCluster : Cluster :=
  { exampleCluster with configs := .ok [persistedConfig] }

/-- The configuration was recently updated, in the words of the specification:
`LastUpdateTime` is set and less than 15 seconds old. -/
def recentlyUpdated (config : SelfNodeRemediationConfig) (now : Int) : Prop :=
  match config.Status.LastUpdateTime with
  | none => False
  | some t => now - t < 15 * Second

instance (config : SelfNodeRemediationConfig) (now : Int) :
    Decidable (recentlyUpdated config now) := by
  unfold recentlyUpdated; split <;> infer_instance

/-- The configuration `persistedConfig` with a configured safe time of 60s. -/
def shortSafeTimeConfig : SelfNodeRemediationConfig :=
  { persistedConfig with Spec := { SafeTimeToAssumeNodeRebootedSeconds := 60 } }

/-- A cluster holding `persistedConfig`, 10 seconds after its last update. -/
def recentCluster : Cluster :=
  { persistedCluster with now := 1700000010000000000 }

/-- A cluster holding `persistedConfig`, 20 seconds after its last update. -/
def staleCluster : Cluster :=
  { persistedCluster with now := 1700000020000000000 }

/-- A cluster holding `shortSafeTimeConfig`, 10 seconds after its last update. -/
def shortSafeTimeCluster : Cluster :=
  { recentCluster with configs := .ok [shortSafeTimeConfig] }

/-! ## Peer verdicts (`pkg/peers/response.go`) -/

/-- The struct `peers.Response`; the Go type `reason` is a string. -/
structure Response where
  IsHealthy : Bool
  Reason : String
  deriving DecidableEq, Repr

/-- The constant `HealthyBecauseCRNotFound`. -/
def HealthyBecauseCRNotFound : String := "CR Not found, node is considered healthy"

/-- The constant `HealthyBecauseErrorsThresholdNotReached`. -/
def HealthyBecauseErrorsThresholdNotReached : String :=
  "Errors number hasn't reached threshold not querying peers yet, node is considered healthy"

/-- The constant `HealthyBecauseNoPeersResponseNotReachedMaxAttempts`. -/
def HealthyBecauseNoPeersResponseNotReachedMaxAttempts : String :=
  "No response from peer hasn't passed the non responsive time threshold so still considered healthy"

/-- The constant `HealthyBecauseNoPeersWereFound`. -/
def HealthyBecauseNoPeersWereFound : String := "No Peers where found, node is considered healthy"

/-- The constant `HealthyBecauseMostPeersCantAccessAPIServer`. -/
def HealthyBecauseMostPeersCantAccessAPIServer : String :=
  "Most peers couldn't access API server, node is considered healthy"

/-- The constant `UnHealthyBecausePeersResponse`. -/
def UnHealthyBecausePeersResponse : String := "Node is reported unhealthy by it's peers"

/-- The constant `UnHealthyBecauseNodeIsIsolated`. -/
def UnHealthyBecauseNodeIsIsolated : String := "Node is isolated, node is considered unhealthy"

/-- Modelled from the spec: `manager.go` uses the constant `peers.UnHealthyBecauseCRFound`,
whose declaration is not among the sources; it is the reason "unhealthy: explicit failure
marker found" of the decision table. Only its being different from the other reasons of
the `switch` is used (Go rejects a `switch` with two equal constant cases). -/
def UnHealthyBecauseCRFound : String := "CR found, node is considered unhealthy"

/-- Modelled from the spec: the type `peers.Role` is not among the sources; a node is a
worker or a control-plane (master) node. -/
inductive Role where
  | Worker
  | Master
  deriving DecidableEq, Repr

/-- Modelled from the spec: the constant `peers.WorkerLabelName` is not among the sources;
it is the dedicated worker marker. -/
def WorkerLabelName : String := "node-role.kubernetes.io/worker"

/-! ## The master manager (`pkg/master/manager.go`) -/

/-- The struct `Manager` (client and logger are external); the map
`nodeNameRoleMapping` is a list of bindings, the most recent first. -/
structure Manager where
  nodeName : String
  nodeRole : Role
  nodeNameRoleMapping : List (String × Role)
  isHasInternetAccess : Bool
  deriving DecidableEq, Repr

/-- The constructor `NewManager`; the zero value of `nodeRole` is taken to be `Worker`. -/
def NewManager (nodeName : String) : Manager :=
  { nodeName := nodeName
    nodeRole := Role.Worker
    nodeNameRoleMapping := []
    isHasInternetAccess := false }

/-- The method `IsMaster`. -/
def IsMaster (manager : Manager) : Bool := manager.nodeRole == Role.Master

/-- What the outside world answers during one evaluation: whether
`net.DialTimeout("tcp", "google.com:80", ...)` succeeds, whether the `curl` command to the
kubelet port fails (with which error), and the number `rand.Intn(2)` draws. -/
structure Probes where
  dialSucceeds : Bool
  curlError : Option String
  randIntn : Nat
  deriving DecidableEq, Repr

/-- The function `isHasInternetAccess`; `none` is a panic. When the dial fails `con` is
`nil`, and the deferred `con.Close()` on the nil interface panics after `err == nil` was
evaluated, so the function returns `true` or does not return. -/
def isHasInternetAccess (probes : Probes) : Option Bool :=
  if probes.dialSucceeds then some true else none

/-- The method `isKubeletServiceRunning`. -/
def isKubeletServiceRunning (probes : Probes) : Bool :=
  match probes.curlError with
  | some _ => false
  | none => true

/-- The method `isDiagnosticsPassed`: the returned pair of result and error, `none` when
it panics. The operator `&&` calls `isHasInternetAccess()` only when
`manager.isHasInternetAccess` is set. -/
def isDiagnosticsPassed (manager : Manager) (probes : Probes) : Option (Bool × Option String) :=
  let isLostInternetConnection : Option Bool :=
    if manager.isHasInternetAccess then
      match isHasInternetAccess probes with
      | some access => some (!access)
      | none => none
    else some false
  match isLostInternetConnection with
  | none => none
  | some true => some (false, none)
  | some false =>
    if !isKubeletServiceRunning probes then some (false, none)
    else
      let randomBool := decide (probes.randIntn = 0)
      some (randomBool, none)

/-- The method `IsMasterHealthy`: the returned verdict, `none` when it panics. The cases of
the `switch` are tried in order. -/
def IsMasterHealthy (manager : Manager) (probes : Probes) (workerPeerResponse : Response)
    (isOtherMastersCanBeReached : Bool) : Option Bool :=
  if workerPeerResponse.Reason = UnHealthyBecauseCRFound then some false
  else if workerPeerResponse.Reason = UnHealthyBecauseNodeIsIsolated then
    some isOtherMastersCanBeReached
  else if workerPeerResponse.Reason = HealthyBecauseErrorsThresholdNotReached ∨
      workerPeerResponse.Reason = HealthyBecauseCRNotFound then some true
  else if workerPeerResponse.Reason = HealthyBecauseMostPeersCantAccessAPIServer then
    match isDiagnosticsPassed manager probes with
    | none => none
    | some (isHealthy, _) => some isHealthy
  else if workerPeerResponse.Reason = HealthyBecauseNoPeersWereFound then
    match isDiagnosticsPassed manager probes with
    | none => none
    | some (isHealthy, _) => if !isHealthy then some false else some isOtherMastersCanBeReached
  else some false

/-- The text `initErrorText` of the error `initError`. -/
def initErrorText : String := "error initializing master handler"

/-- The function `wrapWithInitError`, on the text of the wrapped error. -/
def wrapWithInitError (err : String) : String := initErrorText ++ " [" ++ err ++ "]"

/-- The test `_, ok := node.Labels[key]`. -/
def hasLabel (node : Node) (key : String) : Bool := (node.Labels.lookup key).isSome

/-- The loop of `initializeManager` over the listed nodes: the map after the loop, or the
map at the first node without a role. The label `usedControlPlaneLabel node` is what
`peers.GetUsedControlPlaneLabel()` returns after `peers.SetControlPlaneLabelType(&node)`;
both functions are not among the sources. -/
def classifyNodes (usedControlPlaneLabel : Node → String) :
    List (String × Role) → List Node → Except (List (String × Role)) (List (String × Role))
  | mapping, [] => .ok mapping
  | mapping, node :: rest =>
    if hasLabel node WorkerLabelName then
      classifyNodes usedControlPlaneLabel ((node.Name, Role.Worker) :: mapping) rest
    else if hasLabel node (usedControlPlaneLabel node) then
      classifyNodes usedControlPlaneLabel ((node.Name, Role.Master) :: mapping) rest
    else .error mapping

/-- The method `initializeManager`: the manager afterwards and the returned error, `none`
when it panics (in `isHasInternetAccess`). `roster` is what listing the nodes answers. -/
def initializeManager (usedControlPlaneLabel : Node → String) (manager : Manager)
    (roster : Except String (List Node)) (probes : Probes) :
    Option (Manager × Option String) :=
  match roster with
  | .error err => some (manager, some (wrapWithInitError err))
  | .ok items =>
    match classifyNodes usedControlPlaneLabel manager.nodeNameRoleMapping items with
    | .error mapping => some ({ manager with nodeNameRoleMapping := mapping }, some initErrorText)
    | .ok mapping =>
      let manager1 := { manager with nodeNameRoleMapping := mapping }
      match mapping.lookup manager1.nodeName with
      | none => some (manager1, some initErrorText)
      | some role =>
        let manager2 := { manager1 with nodeRole := role }
        match isHasInternetAccess probes with
        | none => none
        | some access => some ({ manager2 with isHasInternetAccess := access }, none)

/-- A manager of a control-plane node that had external reachability at startup. -/
def exampleManager : Manager :=
  { nodeName := "master-0"
    nodeRole := Role.Master
    nodeNameRoleMapping := [("master-0", Role.Master)]
    isHasInternetAccess := true }

/-- Both probes pass and `rand.Intn(2)` draws 0. -/
def passingProbesDrawZero : Probes := { dialSucceeds := true, curlError := none, randIntn := 0 }

/-- Both probes pass and `rand.Intn(2)` draws 1. -/
def passingProbesDrawOne : Probes := { dialSucceeds := true, curlError := none, randIntn := 1 }

/-- The dial to the external address fails; the kubelet probe passes. -/
def unreachableProbes : Probes := { dialSucceeds := false, curlError := none, randIntn := 0 }

/-- Modelled from the spec: the control-plane marker is checked across a deprecated and a
current label key; `peers.SetControlPlaneLabelType` and `peers.GetUsedControlPlaneLabel`
are not among the sources. The deprecated key is used when the node carries it, the
current key otherwise. -/
def exampleUsedControlPlaneLabel (node : Node) : String :=
  if hasLabel node "node-role.kubernetes.io/master" then "node-role.kubernetes.io/master"
  else "node-role.kubernetes.io/control-plane"

/-- The role `initializeManager` gives a node that has one: `Worker` with the worker
marker, `Master` otherwise. -/
def roleOf (node : Node) : Role :=
  if hasLabel node WorkerLabelName then Role.Worker else Role.Master

/-- The node carries a worker marker or a control-plane marker. -/
def hasRoleMarker (usedControlPlaneLabel : Node → String) (node : Node) : Bool :=
  hasLabel node WorkerLabelName || hasLabel node (usedControlPlaneLabel node)

/-- A roster of one worker and one control-plane node. -/
def exampleRoster : List Node :=
  [{ Name := "worker-0", Labels := [("node-role.kubernetes.io/worker", "")] },
   { Name := "master-0", Labels := [("node-role.kubernetes.io/control-plane", "")] }]

/-! ## The fake watchdog (`pkg/watchdog/fake.go`) -/

/-- Modelled from the spec: the declaration of the watchdog status is not among the
sources (`fake.go` uses `Armed`); the specification lists Disarmed, Armed and
Malfunctioning. -/
inductive WatchdogStatus where
  | Disarmed
  | Armed
  | Malfunction
  deriving DecidableEq, Repr

deriving instance DecidableEq for Except

/-- The interface `watchdogImpl`, as what its methods return: the timeout or the error of
`start()`, the error of `feed()` and the error of `disarm()` (`none` is `nil`). -/
structure watchdogImpl where
  start : Except String Int
  feed : Option String
  disarm : Option String
  deriving DecidableEq

/-- The constant `fakeTimeout`. -/
def fakeTimeout : Int := 1 * Second

/-- The struct `fakeWatchdogImpl` with its methods `start`, `feed` and `disarm`. -/
def fakeWatchdogImpl (IsStartSuccessful : Bool) : watchdogImpl :=
  { start := if !IsStartSuccessful then .error "fakeWatchdogImpl crash on start"
             else .ok fakeTimeout
    feed := none
    disarm := none }

/-- A keep-alive task started by `go wait.NonSlidingUntilWithContext(feedCtx, ..., period)`:
it runs the keep-alive cycle every `period` until the context `feedCtx` is cancelled. -/
structure KeepAliveTask where
  feedCtx : Nat
  period : Int
  deriving DecidableEq, Repr

/-- Modelled from the spec: the declaration of `synchronizedWatchdog` is not among the
sources; its fields are those `fake.go` uses. A context is a number; `stop` is the context
the stored cancel function cancels (`none` is a nil function), `contexts` counts the
contexts created so far, `cancelled` lists the cancelled ones and `tasks` the keep-alive
tasks started so far. Every method runs with the mutex held, so it is one step. -/
structure synchronizedWatchdog where
  impl : watchdogImpl
  status : WatchdogStatus
  timeout : Int
  lastFoodTime : Int
  stop : Option Nat
  contexts : Nat
  cancelled : List Nat
  tasks : List KeepAliveTask
  deriving DecidableEq

/-- The method `FakeDog.startFeeding`: a new cancellable context is created, its cancel
function is stored in `stop`, and one keep-alive task is started on it with the period
`timeout/3`. -/
def FakeDog.startFeeding (swd : synchronizedWatchdog) : synchronizedWatchdog :=
  let feedCtx := swd.contexts
  { swd with
    contexts := swd.contexts + 1
    stop := some feedCtx
    tasks := swd.tasks ++ [{ feedCtx := feedCtx, period := Int.tdiv swd.timeout 3 }] }

/-- The method `FakeDog.Reset`; `none` is the panic of calling a nil `stop`. -/
def FakeDog.Reset (swd : synchronizedWatchdog) : Option synchronizedWatchdog :=
  if swd.status ≠ WatchdogStatus.Armed then
    match swd.stop with
    | none => none
    | some ctx =>
      let swd1 := { swd with cancelled := ctx :: swd.cancelled }
      let swd2 := { swd1 with status := WatchdogStatus.Armed }
      some (FakeDog.startFeeding swd2)
  else some swd

/-- One run of the function a keep-alive task calls each period (the closure of
`FakeDog.startFeeding`), at time `now`: the watchdog afterwards and the number of calls of
`feed()`. -/
def keepAliveCycle (swd : synchronizedWatchdog) (now : Int) : synchronizedWatchdog × Nat :=
  if swd.status ≠ WatchdogStatus.Armed then (swd, 0)
  else
    match swd.impl.feed with
    | some _ => (swd, 1)
    | none => ({ swd with lastFoodTime := now }, 1)

/-- A fake watchdog that was armed (context 0) and disarmed again. -/
def disarmedFakeDog : synchronizedWatchdog :=
  { impl := fakeWatchdogImpl true
    status := WatchdogStatus.Disarmed
    timeout := fakeTimeout
    lastFoodTime := 1700000000000000000
    stop := some 0
    contexts := 1
    cancelled := [0]
    tasks := [{ feedCtx := 0, period := 333333333 }] }

/-- An armed watchdog whose `feed()` fails. -/
def failingFeedDog : synchronizedWatchdog :=
  { disarmedFakeDog with
    impl := { start := .ok fakeTimeout, feed := some "write failed", disarm := none }
    status := WatchdogStatus.Armed }

/-! ## The configuration controller (`controllers/selfnoderemediationconfig_controller.go`) -/

/-- The constant `ConfigCRName` of `api/v1alpha1`. -/
def ConfigCRName : String := "self-node-config"

/-- The request `ctrl.Request`: a namespaced name. -/
structure Request where
  Name : String
  Namespace : String
  deriving DecidableEq, Repr

/-- The type `ctrl.Result`; `Result{}` is the empty result. -/
structure Result where
  Requeue : Bool := false
  RequeueAfter : Int := 0
  deriving DecidableEq, Repr

/-- The reconciler `SelfNodeRemediationConfigReconciler`: the operator's namespace (client,
logger, scheme and install folder are external). -/
structure SelfNodeRemediationConfigReconciler where
  Namespace : String
  deriving DecidableEq, Repr

/-- What `r.Client.Get` answers for the configuration. -/
inductive GetConfigAnswer where
  | notFound (err : String)
  | failed (err : String)
  | found (deletionTimestampSet : Bool)
  deriving DecidableEq, Repr

/-- What the collaborators answer during one reconcile: the answer of `r.Client.Get`, the
error of `syncCerts` and the error of `syncConfigDaemonSet` (`none` is `nil`). -/
structure ReconcileAnswers where
  getConfig : GetConfigAnswer
  syncCerts : Option String
  syncConfigDaemonSet : Option String
  deriving DecidableEq, Repr

/-- The calls `Reconcile` makes on its collaborators. -/
inductive ReconcileCall where
  | getConfig
  | syncCerts
  | syncConfigDaemonSet
  deriving DecidableEq, Repr

/-- The method `Reconcile`: the returned result and error, and the calls made, in order. -/
def Reconcile (r : SelfNodeRemediationConfigReconciler) (answers : ReconcileAnswers)
    (req : Request) : Result × Option String × List ReconcileCall :=
  if req.Name ≠ ConfigCRName ∨ req.Namespace ≠ r.Namespace then ({}, none, [])
  else
    match answers.getConfig with
    | .notFound _ => ({}, none, [ReconcileCall.getConfig])
    | .found true => ({}, none, [ReconcileCall.getConfig])
    | .failed err => ({}, some err, [ReconcileCall.getConfig])
    | .found false =>
      match answers.syncCerts with
      | some err => ({}, some err, [ReconcileCall.getConfig, ReconcileCall.syncCerts])
      | none =>
        match answers.syncConfigDaemonSet with
        | some err =>
          ({}, some err,
            [ReconcileCall.getConfig, ReconcileCall.syncCerts, ReconcileCall.syncConfigDaemonSet])
        | none =>
          ({}, none,
            [ReconcileCall.getConfig, ReconcileCall.syncCerts, ReconcileCall.syncConfigDaemonSet])

/-- The reconciler of the operator namespace of the controller test. -/
def exampleReconciler : SelfNodeRemediationConfigReconciler := { Namespace := "self-node-remediation" }

/-- Collaborators that would sync the daemonset if they were called. -/
def exampleAnswers : ReconcileAnswers :=
  { getConfig := .found false, syncCerts := none, syncConfigDaemonSet := none }

/-- An agent with a check interval of 15.5s and a configured safe time of 60s; its floor
is `(15.5s+5s)*3 + 30s + 2*(5s+5s) + 1s + 15s = 127.5s`. -/
def fractionalAgent : safeTimeCalculator :=
  NewAgentSafeTimeCalculator (some { GetTimeout := 1000000000 }) 3 15500000000 5000000000
    5000000000 5000000000 60000000000

/-- A configuration resource with a configured safe time of 60s and no stored floor. -/
def freshShortSafeTimeConfig : SelfNodeRemediationConfig :=
  { exampleConfig with Spec := { SafeTimeToAssumeNodeRebootedSeconds := 60 } }

/-- A cluster with five workers and the configuration `freshShortSafeTimeConfig`. -/
def freshShortSafeTimeCluster : Cluster :=
  { exampleCluster with configs := .ok [freshShortSafeTimeConfig] }

/-- The stored floor or the warning condition computed for the new floor `n` differs from
the fetched resource: the floor `n` is to overwrite a different stored floor, or setting
the condition changes the list of conditions. -/
def floorOrConditionDiffers (n : Int) (config : SelfNodeRemediationConfig) (now : Int) : Prop :=
  ((n > config.Status.MinSafeTimeToAssumeNodeRebootedSeconds ∨
      (¬ recentlyUpdated config now ∧
        n ≠ config.Status.MinSafeTimeToAssumeNodeRebootedSeconds)) ∧
    n ≠ config.Status.MinSafeTimeToAssumeNodeRebootedSeconds) ∨
  SetStatusCondition config.Status.Conditions
    (if isSafeTimeOverridden n config then overriddenCondition else validCondition) now ≠
    config.Status.Conditions

instance (n : Int) (config : SelfNodeRemediationConfig) (now : Int) :
    Decidable (floorOrConditionDiffers n config now) := by
  unfold floorOrConditionDiffers; infer_instance

/-- The cluster `exampleCluster` after an agent persisted the floor 126s, one minute
later. -/
def settledCluster : Cluster :=
  { (manageSafeRebootTimeInConfiguration truncSeconds exampleCluster (126 * Second)).cluster with
    now := 1700000060000000000 }

/-! ## Daemonset tolerations (`updateDsTolerations`) -/

/-- The type `corev1.Toleration`: `Operator` is a `corev1.TolerationOperator`, `Effect` a
`corev1.TaintEffect` (both named string types) and `TolerationSeconds` a `*int64`. -/
structure Toleration where
  Key : String
  Operator : String
  Value : String
  Effect : String
  TolerationSeconds : Option Int
  deriving DecidableEq, Repr

/-- A Go value held in an `interface{}` of an unstructured object, with its dynamic type:
the JSON types `string`, `int64` and `bool`, and the types of the fields of a
`corev1.Toleration` that are not JSON types. -/
inductive FieldValue where
  | string (s : String)
  | int64 (n : Int)
  | bool (b : Bool)
  | tolerationOperator (s : String)
  | taintEffect (s : String)
  | int64Pointer (p : Option Int)
  deriving DecidableEq, Repr

/-- An entry of a tolerations list, a `map[string]interface{}`. -/
abbrev TolerationEntry := List (String × FieldValue)

/-- What `unstructured.NestedFieldNoCopy(ds.Object, "spec", "template", "spec",
"tolerations")` finds: an error (a level of the path is not a map), nothing, a list
(`[]interface{}`) of entries, or a value of another type. -/
inductive NestedTolerations where
  | pathError (err : String)
  | missing
  | list (entries : List TolerationEntry)
  | other (goType : String)
  deriving DecidableEq, Repr

/-- A rendered object (`*unstructured.Unstructured`), as far as `updateDsTolerations` reads
and writes it: its kind and what is at `spec.template.spec.tolerations`. -/
structure Unstructured where
  Kind : String
  tolerations : NestedTolerations
  deriving DecidableEq, Repr

/-- The dynamic type is one `runtime.DeepCopyJSONValue` copies: `string`, `int64`, `bool`
(and `float64`, `nil`, `json.Number`, maps and lists of such values). -/
def FieldValue.isJSONValue : FieldValue → Bool
  | .string _ => true
  | .int64 _ => true
  | .bool _ => true
  | .tolerationOperator _ => false
  | .taintEffect _ => false
  | .int64Pointer _ => false

/-- The library function `runtime.DeepCopyJSONValue` on a list of entries: a copy, or a
panic (`none`, "cannot deep copy") at a value whose dynamic type is not a JSON type. -/
def DeepCopyJSONValue (entries : List TolerationEntry) : Option (List TolerationEntry) :=
  if entries.all (fun entry => entry.all (fun field => field.2.isJSONValue)) then some entries
  else none

/-- The library function `unstructured.SetNestedField` at the tolerations path of an object
in which the path exists: it stores a deep copy of the value, and panics when the deep
copy does. -/
def SetNestedField (ds : Unstructured) (value : List TolerationEntry) :
    Option (Unstructured × Option String) :=
  match DeepCopyJSONValue value with
  | none => none
  | some copy => some ({ ds with tolerations := .list copy }, none)

/-- The method `updateTolerationOnDs`: the object afterwards and the returned error, `none`
when it panics. -/
def updateTolerationOnDs (ds : Unstructured) (toleration : Toleration) :
    Option (Unstructured × Option String) :=
  match ds.tolerations with
  | .pathError err => some (ds, some err)
  | .missing =>
    some (ds, some "failed to convert tolerations expected of type []interface {} but got <nil>")
  | .other goType =>
    some (ds, some ("failed to convert tolerations expected of type []interface {} but got "
      ++ goType))
  | .list tolerations =>
    let newToleration : TolerationEntry :=
      [("Key", .string toleration.Key),
       ("operator", .tolerationOperator toleration.Operator),
       ("value", .string toleration.Value),
       ("effect", .taintEffect toleration.Effect),
       ("tolerationseconds", .int64Pointer toleration.TolerationSeconds)]
    let updatedTolerations := tolerations ++ [newToleration]
    match SetNestedField ds updatedTolerations with
    | none => none
    | some (ds1, some err) => some (ds1, some err)
    | some (ds1, none) => some (ds1, none)

/-- The inner loop of `updateDsTolerations`, `for _, ds := range objs`, for one
toleration: the objects afterwards and the error that ended the loop. -/
def updateTolerationOnAll (toleration : Toleration) :
    List Unstructured → Option (List Unstructured × Option String)
  | [] => some ([], none)
  | ds :: rest =>
    match updateTolerationOnDs ds toleration with
    | none => none
    | some (ds1, some err) => some (ds1 :: rest, some err)
    | some (ds1, none) =>
      match updateTolerationOnAll toleration rest with
      | none => none
      | some (rest1, err) => some (ds1 :: rest1, err)

/-- The outer loop of `updateDsTolerations`, `for _, toleration := range tolerations`. -/
def updateEachToleration :
    List Unstructured → List Toleration → Option (List Unstructured × Option String)
  | objs, [] => some (objs, none)
  | objs, toleration :: rest =>
    match updateTolerationOnAll toleration objs with
    | none => none
    | some (objs1, some err) => some (objs1, some err)
    | some (objs1, none) => updateEachToleration objs1 rest

/-- The method `updateDsTolerations`: the objects afterwards and the returned error, `none`
when it panics. -/
def updateDsTolerations (objs : List Unstructured) (tolerations : List Toleration) :
    Option (List Unstructured × Option String) :=
  if tolerations.length = 0 then some (objs, none)
  else updateEachToleration objs tolerations

/-- Three tolerations, as a rendered daemonset carries them (the controller test expects
three rendered tolerations and one custom toleration, four in all). -/
def renderedTolerations : List TolerationEntry :=
  [[("key", .string "node-role.kubernetes.io/master"), ("effect", .string "NoSchedule")],
   [("key", .string "node-role.kubernetes.io/control-plane"), ("effect", .string "NoSchedule")],
   [("operator", .string "Exists"), ("effect", .string "NoExecute")]]

/-- A rendered daemonset with three tolerations. -/
def renderedDaemonSet : Unstructured :=
  { Kind := "DaemonSet", tolerations := .list renderedTolerations }

/-- The custom toleration of the controller test. -/
def dummyToleration : Toleration :=
  { Key := "dummyTolerationKey", Operator := "Equal", Value := "", Effect := "NoExecute",
    TolerationSeconds := none }

/-- The configuration `persistedConfig` with a configured safe time of 9223372037 seconds,
more than an `int64` duration can hold. -/
def hugeSafeTimeConfig : SelfNodeRemediationConfig :=
  { persistedConfig with Spec := { SafeTimeToAssumeNodeRebootedSeconds := 9223372037 } }

/-- A cluster holding `hugeSafeTimeConfig`. -/
def hugeSafeTimeCluster : Cluster :=
  { exampleCluster with configs := .ok [hugeSafeTimeConfig] }

/-- The configuration `exampleConfig` (configured safe time 180s) with a stored floor of
9223372037 seconds. -/
def hugeFloorConfig : SelfNodeRemediationConfig :=
  { exampleConfig with
    Status := { MinSafeTimeToAssumeNodeRebootedSeconds := 9223372037
                LastUpdateTime := some 1700000000000000000
                Conditions := [] } }

/-- A cluster holding `hugeFloorConfig`. -/
def hugeFloorCluster : Cluster :=
  { exampleCluster with configs := .ok [hugeFloorConfig] }

/-- The cluster `exampleCluster` a third of a second later: the current time is not a whole
number of seconds. -/
def midSecondCluster : Cluster :=
  { exampleCluster with now := 1700000000333333333 }

/-! ## Wrap-around arithmetic -/

theorem wrapInt64_of_inInt64 {x : Int} (h : inInt64 x) : wrapInt64 x = x := by
  unfold inInt64 minInt64 maxInt64 at h
  unfold wrapInt64
  omega

theorem wrapInt64_modEq (x : Int) : wrapInt64 x ≡ x [ZMOD 18446744073709551616] := by
  unfold wrapInt64 Int.ModEq
  omega

theorem wrapInt64_congr {x y : Int} (h : x ≡ y [ZMOD 18446744073709551616]) :
    wrapInt64 x = wrapInt64 y := by
  unfold Int.ModEq at h
  unfold wrapInt64
  omega

/-! ## The batch count -/

theorem maxNumberOfBatches_eq : add64 MaxBatchesAfterFirst 1 = 11 := by decide

theorem maxWorkers_eq : mul64 11 MinNodesNumberInBatch = 33 := by decide

/-- The number of batches the `switch` of `calcNumOfBatches` computes for a roster. -/
theorem numberOfBatches_eq (W : Nat) :
    (if (W : Int) > 33 then (11 : Int)
      else if Int.tmod (W : Int) MinNodesNumberInBatch ≠ 0 then
        add64 (Int.tdiv (W : Int) MinNodesNumberInBatch) 1
      else Int.tdiv (W : Int) MinNodesNumberInBatch) = specBatches W := by
  unfold specBatches
  by_cases h : W > 33
  · have h1 : (W : Int) > 33 := by exact_mod_cast h
    simp [h, h1]
  · have h1 : ¬ (W : Int) > 33 := by
      intro hh; apply h; exact_mod_cast hh
    rw [if_neg h1, if_neg h]
    have hd : Int.tdiv (W : Int) MinNodesNumberInBatch = (W : Int) / 3 :=
      Int.tdiv_eq_ediv (by omega) (by decide)
    have hm : Int.tmod (W : Int) MinNodesNumberInBatch = (W : Int) % 3 :=
      Int.tmod_eq_emod (by omega) (by decide)
    rw [hd, hm]
    symm
    rw [Int.ceil_eq_iff]
    have hW : ((W : Int) : ℚ) = (W : ℚ) := by norm_cast
    have key : (W : Int) = 3 * ((W : Int) / 3) + (W : Int) % 3 := by omega
    have keyq : (W : ℚ) = 3 * (((W : Int) / 3 : Int) : ℚ) + (((W : Int) % 3 : Int) : ℚ) := by
      rw [← hW]; exact_mod_cast key
    have hr0 : (0 : ℚ) ≤ (((W : Int) % 3 : Int) : ℚ) := by
      have : (0 : Int) ≤ (W : Int) % 3 := by omega
      exact_mod_cast this
    have hr2 : (((W : Int) % 3 : Int) : ℚ) ≤ 2 := by
      have : (W : Int) % 3 ≤ 2 := by omega
      exact_mod_cast this
    by_cases hz : (W : Int) % 3 = 0
    · rw [if_neg (by simpa using hz)]
      have hzq : (((W : Int) % 3 : Int) : ℚ) = 0 := by exact_mod_cast hz
      rw [keyq, hzq]
      constructor <;> linarith
    · rw [if_pos hz]
      have hq : (W : Int) / 3 ≤ 11 := by omega
      have hq0 : 0 ≤ (W : Int) / 3 := by omega
      have hadd : add64 ((W : Int) / 3) 1 = (W : Int) / 3 + 1 := by
        unfold add64; apply wrapInt64_of_inInt64
        unfold inInt64 minInt64 maxInt64; omega
      rw [hadd]
      have hr1 : (1 : ℚ) ≤ (((W : Int) % 3 : Int) : ℚ) := by
        have : (1 : Int) ≤ (W : Int) % 3 := by omega
        exact_mod_cast this
      rw [keyq]
      push_cast
      constructor <;> linarith

/-- On a successful roster query `calcNumOfBatches` ratchets: it stores and returns the
larger of the stored batch number and the batch count of the roster. -/
theorem calcNumOfBatches_ok (s : safeTimeCalculator) (items : List Node) :
    calcNumOfBatches s (.ok items) =
      ({ s with
          highestCalculatedBatchNumber :=
            max s.highestCalculatedBatchNumber (specBatches items.length) },
        max s.highestCalculatedBatchNumber (specBatches items.length)) := by
  unfold calcNumOfBatches
  simp only [maxNumberOfBatches_eq, maxWorkers_eq]
  have h := numberOfBatches_eq items.length
  simp only [] at h ⊢
  rw [h]
  by_cases hlt : s.highestCalculatedBatchNumber < specBatches items.length
  · rw [if_pos hlt, max_eq_right (le_of_lt hlt)]
  · rw [if_neg hlt, max_eq_left (not_lt.mp hlt)]

theorem calcNumOfBatches_error (s : safeTimeCalculator) (e : String) :
    calcNumOfBatches s (.error e) = (s, 11) := by
  unfold calcNumOfBatches
  simp only [maxNumberOfBatches_eq]

theorem wrapInt64_add_left (a b : Int) : wrapInt64 (wrapInt64 a + b) = wrapInt64 (a + b) :=
  wrapInt64_congr ((wrapInt64_modEq a).add_right b)

theorem wrapInt64_add_right (a b : Int) : wrapInt64 (a + wrapInt64 b) = wrapInt64 (a + b) :=
  wrapInt64_congr ((wrapInt64_modEq b).add_left a)

theorem wrapInt64_mul_left (a b : Int) : wrapInt64 (wrapInt64 a * b) = wrapInt64 (a * b) :=
  wrapInt64_congr ((wrapInt64_modEq a).mul_right b)

theorem wrapInt64_mul_right (a b : Int) : wrapInt64 (a * wrapInt64 b) = wrapInt64 (a * b) :=
  wrapInt64_congr ((wrapInt64_modEq b).mul_left a)

/-- The call `calcNumOfBatches` changes no field but the ratchet. -/
theorem calcNumOfBatches_frame (s : safeTimeCalculator) (roster : Except String (List Node)) :
    ∃ h : Int, (calcNumOfBatches s roster).1 = { s with highestCalculatedBatchNumber := h } := by
  cases roster with
  | error e => rw [calcNumOfBatches_error]; exact ⟨s.highestCalculatedBatchNumber, rfl⟩
  | ok items => rw [calcNumOfBatches_ok]; exact ⟨_, rfl⟩

/-! ## The floor -/

/-- The floor an agent-role calculator stores is the closed-form sum, reduced to `int64`,
for the batch count `calcNumOfBatches` returned. -/
theorem calcMinTimeAssumeRebooted_floor (toSeconds : Int → Int) (s : safeTimeCalculator)
    (c : Cluster) (hAgent : s.isAgent = true) :
    (calcMinTimeAssumeRebooted toSeconds s c).calculator.minTimeToAssumeNodeRebooted =
      wrapInt64 (closedFormFloor s (calcNumOfBatches s c.nodes).2) := by
  obtain ⟨h, hh⟩ := calcNumOfBatches_frame s c.nodes
  unfold calcMinTimeAssumeRebooted
  cases hcb : calcNumOfBatches s c.nodes with
  | mk s1 b =>
    rw [hcb] at hh
    simp only [] at hh
    subst hh
    simp only [hAgent, Bool.not_true, Bool.false_eq_true, if_false]
    unfold closedFormFloor watchdogTimeout MaxTimeForNoPeersResponse
    cases hwd : s.wd with
    | none =>
      simp only [add64, mul64, wrapInt64_add_left, wrapInt64_add_right, wrapInt64_mul_left,
        wrapInt64_mul_right]
      congr 1
      ring
    | some wd =>
      simp only [add64, mul64, wrapInt64_add_left, wrapInt64_add_right, wrapInt64_mul_left,
        wrapInt64_mul_right]

/-- C1 (as stated) fails: the valid agent configuration with check interval 15s, server
timeout 5s and error threshold 500000000 sees five workers (two batches); the closed-form
sum is 10000000066000000000 ns, more than an `int64` duration holds, and
`calcMinTimeAssumeRebooted` stores -8446744007709551616 ns instead. -/
theorem C1_counterexample :
    largeThresholdAgent.isAgent = true ∧ validConfiguration largeThresholdAgent ∧
      (calcNumOfBatches largeThresholdAgent exampleCluster.nodes).2 = 2 ∧
      (largeThresholdAgent.apiCheckInterval + largeThresholdAgent.apiServerTimeout)
          * largeThresholdAgent.maxErrorThreshold + 30 * Second
          + (calcNumOfBatches largeThresholdAgent exampleCluster.nodes).2
            * (largeThresholdAgent.peerDialTimeout + largeThresholdAgent.peerRequestTimeout)
          + watchdogTimeout largeThresholdAgent + 15 * Second = 10000000066000000000 ∧
      (calcMinTimeAssumeRebooted truncSeconds largeThresholdAgent
        exampleCluster).calculator.minTimeToAssumeNodeRebooted = -8446744007709551616 ∧
      (calcMinTimeAssumeRebooted truncSeconds largeThresholdAgent
        exampleCluster).calculator.minTimeToAssumeNodeRebooted ≠
        (largeThresholdAgent.apiCheckInterval + largeThresholdAgent.apiServerTimeout)
          * largeThresholdAgent.maxErrorThreshold + 30 * Second
          + (calcNumOfBatches largeThresholdAgent exampleCluster.nodes).2
            * (largeThresholdAgent.peerDialTimeout + largeThresholdAgent.peerRequestTimeout)
          + watchdogTimeout largeThresholdAgent + 15 * Second := by
  decide

/-- C1 (amended): for every agent-role calculator, every configuration and every cluster
answer for which the sum
`(apiCheckInterval+apiServerTimeout)*maxErrorThreshold + 30s + b*(peerDialTimeout+peerRequestTimeout)
+ watchdogTimeout + 15s`, with `b` the batch count `calcNumOfBatches` returned, is
representable as an `int64` duration (no overflow), `calcMinTimeAssumeRebooted` stores in
`minTimeToAssumeNodeRebooted` exactly that sum; the watchdog term is `0` when no watchdog
is attached and the timeout the watchdog reports otherwise. -/
theorem C1_floor_closed_form_without_overflow (toSeconds : Int → Int) (s : safeTimeCalculator)
    (c : Cluster) (hAgent : s.isAgent = true)
    (hNoOverflow : inInt64 ((s.apiCheckInterval + s.apiServerTimeout) * s.maxErrorThreshold
        + 30 * Second
        + (calcNumOfBatches s c.nodes).2 * (s.peerDialTimeout + s.peerRequestTimeout)
        + watchdogTimeout s + 15 * Second)) :
    (calcMinTimeAssumeRebooted toSeconds s c).calculator.minTimeToAssumeNodeRebooted =
        (s.apiCheckInterval + s.apiServerTimeout) * s.maxErrorThreshold + 30 * Second
          + (calcNumOfBatches s c.nodes).2 * (s.peerDialTimeout + s.peerRequestTimeout)
          + watchdogTimeout s + 15 * Second ∧
      (s.wd = none → watchdogTimeout s = 0) ∧
      (∀ wd : Watchdog, s.wd = some wd → watchdogTimeout s = wd.GetTimeout) := by
  have h := calcMinTimeAssumeRebooted_floor toSeconds s c hAgent
  unfold closedFormFloor at h
  refine ⟨?_, ?_, ?_⟩
  · rw [h, wrapInt64_of_inInt64 hNoOverflow]
  · intro hn
    unfold watchdogTimeout
    rw [hn]
  · intro wd hw
    unfold watchdogTimeout
    rw [hw]

/-- C1 (amended), at the default configuration with five workers: the stored floor is
`(15s+5s)*3 + 30s + 2*(5s+5s) + 1s + 15s = 126s`. -/
theorem C1_floor_closed_form_without_overflow_witness :
    exampleAgent.isAgent = true ∧
      (calcMinTimeAssumeRebooted truncSeconds exampleAgent
        exampleCluster).calculator.minTimeToAssumeNodeRebooted = 126 * Second := by
  refine ⟨rfl, ?_⟩
  rw [(C1_floor_closed_form_without_overflow truncSeconds exampleAgent exampleCluster rfl
    (by decide)).1]
  decide

theorem specBatches_nonneg (W : Nat) : 0 ≤ specBatches W := by
  unfold specBatches
  split
  · decide
  · apply Int.ceil_nonneg
    positivity

theorem specBatches_le_max (W : Nat) : specBatches W ≤ 11 := by
  unfold specBatches
  split
  · exact le_refl _
  · rename_i h
    rw [Int.ceil_le]
    have h1 : (W : ℚ) ≤ 33 := by exact_mod_cast (not_lt.mp h)
    push_cast
    linarith

theorem specBatches_mono {W1 W2 : Nat} (h : W1 ≤ W2) : specBatches W1 ≤ specBatches W2 := by
  by_cases h2 : W2 > 33
  · have : specBatches W2 = 11 := by unfold specBatches; rw [if_pos h2]
    rw [this]
    exact specBatches_le_max W1
  · have h1 : ¬ W1 > 33 := by omega
    unfold specBatches
    rw [if_neg h1, if_neg h2]
    apply Int.ceil_mono
    have : (W1 : ℚ) ≤ (W2 : ℚ) := by exact_mod_cast h
    linarith

/-- C2 (as stated) fails: two valid agent configurations that differ only in
`maxErrorThreshold` (3 and 500000000), on the same cluster and with the same ratchet; the
floor of the second, `(15s+5s)*500000000 + ...`, overflows `int64` and is negative, below
the floor 126s of the first. -/
theorem C2_counterexample :
    validConfiguration exampleAgent ∧ validConfiguration largeThresholdAgent ∧
      largeThresholdAgent = { exampleAgent with maxErrorThreshold := 500000000 } ∧
      exampleAgent.maxErrorThreshold < largeThresholdAgent.maxErrorThreshold ∧
      (calcMinTimeAssumeRebooted truncSeconds exampleAgent
        exampleCluster).calculator.minTimeToAssumeNodeRebooted = 126 * Second ∧
      (calcMinTimeAssumeRebooted truncSeconds largeThresholdAgent
        exampleCluster).calculator.minTimeToAssumeNodeRebooted = -8446744007709551616 ∧
      ¬ (calcMinTimeAssumeRebooted truncSeconds exampleAgent
          exampleCluster).calculator.minTimeToAssumeNodeRebooted ≤
        (calcMinTimeAssumeRebooted truncSeconds largeThresholdAgent
          exampleCluster).calculator.minTimeToAssumeNodeRebooted := by
  decide

/-- C2 (amended): the floor is monotonically non-decreasing in each input as long as the
closed-form sum of the larger configuration does not exceed the largest `int64` duration.
For two agent-role calculators with the same initial ratchet, the first valid, whose
inputs (the five durations, the threshold, the watchdog timeout and the worker count of a
successful roster query) are pointwise at most those of the second, the floor stored for
the second is at least the floor stored for the first. -/
theorem C2_floor_monotone_without_overflow (toSeconds : Int → Int)
    (s1 s2 : safeTimeCalculator) (c1 c2 : Cluster) (workers1 workers2 : List Node)
    (hAgent1 : s1.isAgent = true) (hAgent2 : s2.isAgent = true)
    (hValid : validConfiguration s1)
    (hRatchet : s1.highestCalculatedBatchNumber = s2.highestCalculatedBatchNumber)
    (hNodes1 : c1.nodes = .ok workers1) (hNodes2 : c2.nodes = .ok workers2)
    (hWorkers : workers1.length ≤ workers2.length)
    (hInterval : s1.apiCheckInterval ≤ s2.apiCheckInterval)
    (hTimeout : s1.apiServerTimeout ≤ s2.apiServerTimeout)
    (hThreshold : s1.maxErrorThreshold ≤ s2.maxErrorThreshold)
    (hDial : s1.peerDialTimeout ≤ s2.peerDialTimeout)
    (hRequest : s1.peerRequestTimeout ≤ s2.peerRequestTimeout)
    (hWatchdog : watchdogTimeout s1 ≤ watchdogTimeout s2)
    (hNoOverflow : (s2.apiCheckInterval + s2.apiServerTimeout) * s2.maxErrorThreshold
        + 30 * Second
        + (calcNumOfBatches s2 c2.nodes).2 * (s2.peerDialTimeout + s2.peerRequestTimeout)
        + watchdogTimeout s2 + 15 * Second ≤ maxInt64) :
    (calcMinTimeAssumeRebooted toSeconds s1 c1).calculator.minTimeToAssumeNodeRebooted ≤
      (calcMinTimeAssumeRebooted toSeconds s2 c2).calculator.minTimeToAssumeNodeRebooted := by
  rw [calcMinTimeAssumeRebooted_floor toSeconds s1 c1 hAgent1,
    calcMinTimeAssumeRebooted_floor toSeconds s2 c2 hAgent2]
  obtain ⟨v1, v2, v3, v4, v5, v6⟩ := hValid
  rw [hNodes2, calcNumOfBatches_ok] at hNoOverflow
  rw [hNodes1, hNodes2, calcNumOfBatches_ok, calcNumOfBatches_ok]
  simp only [] at hNoOverflow ⊢
  have hb0 : 0 ≤ max s1.highestCalculatedBatchNumber (specBatches workers1.length) :=
    le_trans (specBatches_nonneg _) (le_max_right _ _)
  have hb : max s1.highestCalculatedBatchNumber (specBatches workers1.length) ≤
      max s2.highestCalculatedBatchNumber (specBatches workers2.length) := by
    rw [hRatchet]
    exact max_le_max (le_refl _) (specBatches_mono hWorkers)
  have hm1 : (s1.apiCheckInterval + s1.apiServerTimeout) * s1.maxErrorThreshold ≤
      (s2.apiCheckInterval + s2.apiServerTimeout) * s2.maxErrorThreshold :=
    mul_le_mul (by linarith) hThreshold v3 (by linarith)
  have hm2 : max s1.highestCalculatedBatchNumber (specBatches workers1.length) *
        (s1.peerDialTimeout + s1.peerRequestTimeout) ≤
      max s2.highestCalculatedBatchNumber (specBatches workers2.length) *
        (s2.peerDialTimeout + s2.peerRequestTimeout) :=
    mul_le_mul hb (by linarith) (by linarith) (le_trans hb0 hb)
  have hp1 : 0 ≤ (s1.apiCheckInterval + s1.apiServerTimeout) * s1.maxErrorThreshold :=
    mul_nonneg (by linarith) v3
  have hp2 : 0 ≤ max s1.highestCalculatedBatchNumber (specBatches workers1.length) *
      (s1.peerDialTimeout + s1.peerRequestTimeout) := mul_nonneg hb0 (by linarith)
  have hS : (0 : Int) ≤ Second := by decide
  have hle : closedFormFloor s1 (max s1.highestCalculatedBatchNumber (specBatches workers1.length))
      ≤ closedFormFloor s2 (max s2.highestCalculatedBatchNumber (specBatches workers2.length)) := by
    unfold closedFormFloor
    linarith
  have h0 : 0 ≤ closedFormFloor s1
      (max s1.highestCalculatedBatchNumber (specBatches workers1.length)) := by
    unfold closedFormFloor
    linarith
  have hmax : closedFormFloor s2
      (max s2.highestCalculatedBatchNumber (specBatches workers2.length)) ≤ maxInt64 := by
    unfold closedFormFloor
    exact hNoOverflow
  have hmin : minInt64 ≤ 0 := by decide
  rw [wrapInt64_of_inInt64 ⟨by linarith, by linarith⟩,
    wrapInt64_of_inInt64 ⟨by linarith, by linarith⟩]
  exact hle

/-- C2 (amended), at the default configuration and the same configuration with a check
interval of 20s: the floor grows from 126s to 141s. -/
theorem C2_floor_monotone_without_overflow_witness :
    validConfiguration exampleAgent ∧
      exampleAgent.apiCheckInterval ≤ slowerAgent.apiCheckInterval ∧
      (calcMinTimeAssumeRebooted truncSeconds exampleAgent
          exampleCluster).calculator.minTimeToAssumeNodeRebooted ≤
        (calcMinTimeAssumeRebooted truncSeconds slowerAgent
          exampleCluster).calculator.minTimeToAssumeNodeRebooted :=
  ⟨by decide, by decide,
    C2_floor_monotone_without_overflow truncSeconds exampleAgent slowerAgent exampleCluster
      exampleCluster (List.replicate 5 exampleNode) (List.replicate 5 exampleNode)
      rfl rfl (by decide) rfl rfl rfl (le_refl _) (by decide) (by decide) (by decide)
      (by decide) (by decide) (by decide) (by decide)⟩

/-- C3: on a fresh calculator (`highestCalculatedBatchNumber = 0`) whose roster query
succeeds with `W` worker nodes, `calcNumOfBatches` returns `11` if `W > 33` and
`ceil(W/3)` otherwise; in particular `W = 33` gives `11`, `W = 34` gives `11` and `W = 1`
gives `1`. -/
theorem C3_fresh_batch_count (s : safeTimeCalculator) (workers : List Node)
    (hFresh : s.highestCalculatedBatchNumber = 0) :
    (calcNumOfBatches s (.ok workers)).2 =
        (if workers.length > 33 then 11 else ⌈(workers.length : ℚ) / 3⌉) ∧
      (workers.length = 33 → (calcNumOfBatches s (.ok workers)).2 = 11) ∧
      (workers.length = 34 → (calcNumOfBatches s (.ok workers)).2 = 11) ∧
      (workers.length = 1 → (calcNumOfBatches s (.ok workers)).2 = 1) := by
  have hret : (calcNumOfBatches s (.ok workers)).2 = specBatches workers.length := by
    rw [calcNumOfBatches_ok, hFresh]
    exact max_eq_right (specBatches_nonneg _)
  refine ⟨?_, ?_, ?_, ?_⟩
  · rw [hret]; rfl
  · intro h; rw [hret, h, ← numberOfBatches_eq]; decide
  · intro h; rw [hret, h, ← numberOfBatches_eq]; decide
  · intro h; rw [hret, h, ← numberOfBatches_eq]; decide

/-- C3, on a newly constructed agent: 33 workers give 11 batches, 34 workers give 11 and
one worker gives 1. -/
theorem C3_fresh_batch_count_witness :
    exampleAgent.highestCalculatedBatchNumber = 0 ∧
      (calcNumOfBatches exampleAgent (.ok (List.replicate 33 exampleNode))).2 = 11 ∧
      (calcNumOfBatches exampleAgent (.ok (List.replicate 34 exampleNode))).2 = 11 ∧
      (calcNumOfBatches exampleAgent (.ok (List.replicate 1 exampleNode))).2 = 1 :=
  ⟨rfl,
    (C3_fresh_batch_count exampleAgent (List.replicate 33 exampleNode) rfl).2.1 (by decide),
    (C3_fresh_batch_count exampleAgent (List.replicate 34 exampleNode) rfl).2.2.1 (by decide),
    (C3_fresh_batch_count exampleAgent (List.replicate 1 exampleNode) rfl).2.2.2 (by decide)⟩

/-- C4: the batch ratchet never decreases. For every calculator state and every successful
roster query with `W` workers, `calcNumOfBatches` returns
`max(batches(W), highestCalculatedBatchNumber)`, stores that value in
`highestCalculatedBatchNumber`, and the stored value after the call is at least the stored
value before it; on a calculator whose ratchet is at most 11 (as after construction) a
call with 40 workers followed by a call with 5 workers returns 11 both times. -/
theorem C4_batch_ratchet (s : safeTimeCalculator) (workers : List Node) :
    (calcNumOfBatches s (.ok workers)).2 =
        max (specBatches workers.length) s.highestCalculatedBatchNumber ∧
      (calcNumOfBatches s (.ok workers)).1.highestCalculatedBatchNumber =
        max (specBatches workers.length) s.highestCalculatedBatchNumber ∧
      s.highestCalculatedBatchNumber ≤
        (calcNumOfBatches s (.ok workers)).1.highestCalculatedBatchNumber ∧
      (∀ workers5 : List Node, s.highestCalculatedBatchNumber ≤ 11 →
        workers.length = 40 → workers5.length = 5 →
        (calcNumOfBatches s (.ok workers)).2 = 11 ∧
          (calcNumOfBatches (calcNumOfBatches s (.ok workers)).1 (.ok workers5)).2 = 11) := by
  rw [calcNumOfBatches_ok]
  simp only []
  refine ⟨max_comm _ _, max_comm _ _, le_max_left _ _, ?_⟩
  intro workers5 hle h40 h5
  have e40 : specBatches 40 = 11 := by rw [← numberOfBatches_eq]; decide
  have e5 : specBatches 5 = 2 := by rw [← numberOfBatches_eq]; decide
  rw [calcNumOfBatches_ok]
  simp only []
  rw [h40, h5, e40, e5, max_eq_right hle]
  exact ⟨rfl, by decide⟩

/-- C4, on a newly constructed agent: 40 workers, then 5 workers, give 11 batches both
times. -/
theorem C4_batch_ratchet_witness :
    (calcNumOfBatches exampleAgent (.ok (List.replicate 40 exampleNode))).2 = 11 ∧
      (calcNumOfBatches (calcNumOfBatches exampleAgent (.ok (List.replicate 40 exampleNode))).1
        (.ok (List.replicate 5 exampleNode))).2 = 11 :=
  (C4_batch_ratchet exampleAgent (List.replicate 40 exampleNode)).2.2.2
    (List.replicate 5 exampleNode) (by decide) (by decide) (by decide)

/-! ## Roster-query failure -/

/-- Persisting the floor succeeds when the configuration is found and the patch, if one
is issued, does not fail. -/
theorem manageSafeRebootTimeInConfiguration_err_none (toSeconds : Int → Int) (c : Cluster)
    (minTime : Int) (config : SelfNodeRemediationConfig)
    (rest : List SelfNodeRemediationConfig) (hConfigs : c.configs = .ok (config :: rest))
    (hPatch : c.patchError = none) :
    (manageSafeRebootTimeInConfiguration toSeconds c minTime).err = none := by
  unfold manageSafeRebootTimeInConfiguration getConfig
  simp only [hConfigs, hPatch]
  split <;> rfl

/-- The error `calcMinTimeAssumeRebooted` returns in agent role is the error of persisting
the floor it stored. -/
theorem calcMinTimeAssumeRebooted_err (toSeconds : Int → Int) (s : safeTimeCalculator)
    (c : Cluster) (hAgent : s.isAgent = true) :
    (calcMinTimeAssumeRebooted toSeconds s c).err =
      (manageSafeRebootTimeInConfiguration toSeconds c
        (calcMinTimeAssumeRebooted toSeconds s c).calculator.minTimeToAssumeNodeRebooted).err := by
  unfold calcMinTimeAssumeRebooted
  simp only [hAgent, Bool.not_true, Bool.false_eq_true, if_false]

/-- C5: when the worker-roster query fails, `calcNumOfBatches` returns the maximum batch
count 11 for every ratchet state (and leaves the calculator as it was), and
`calcMinTimeAssumeRebooted` does not fail because of it: it stores the floor computed with
11 batches, the only error it can return is the one of persisting that floor, and it
returns no error when the configuration is found and the patch does not fail. -/
theorem C5_roster_failure_uses_max_batches (toSeconds : Int → Int) (s : safeTimeCalculator)
    (c : Cluster) (e : String) (hFail : c.nodes = .error e) :
    calcNumOfBatches s c.nodes = (s, 11) ∧
      (s.isAgent = true →
        (calcMinTimeAssumeRebooted toSeconds s c).calculator.minTimeToAssumeNodeRebooted =
          wrapInt64 ((s.apiCheckInterval + s.apiServerTimeout) * s.maxErrorThreshold
            + 30 * Second + 11 * (s.peerDialTimeout + s.peerRequestTimeout)
            + watchdogTimeout s + 15 * Second)) ∧
      (s.isAgent = true →
        (calcMinTimeAssumeRebooted toSeconds s c).err =
          (manageSafeRebootTimeInConfiguration toSeconds c
            (calcMinTimeAssumeRebooted toSeconds s c).calculator.minTimeToAssumeNodeRebooted).err) ∧
      (∀ (config : SelfNodeRemediationConfig) (rest : List SelfNodeRemediationConfig),
        c.configs = .ok (config :: rest) → c.patchError = none →
        (calcMinTimeAssumeRebooted toSeconds s c).err = none) := by
  have hret : calcNumOfBatches s c.nodes = (s, 11) := by
    rw [hFail, calcNumOfBatches_error]
  refine ⟨hret, ?_, calcMinTimeAssumeRebooted_err toSeconds s c, ?_⟩
  · intro hAgent
    rw [calcMinTimeAssumeRebooted_floor toSeconds s c hAgent, hret]
    rfl
  · intro config rest hConfigs hPatch
    cases hAgent : s.isAgent with
    | false =>
      unfold calcMinTimeAssumeRebooted
      simp only [hAgent, Bool.not_false, if_true]
    | true =>
      rw [calcMinTimeAssumeRebooted_err toSeconds s c hAgent]
      exact manageSafeRebootTimeInConfiguration_err_none toSeconds c _ config rest hConfigs hPatch

/-- C5, at the default configuration when the roster query fails: 11 batches are used,
the floor is `(15s+5s)*3 + 30s + 11*(5s+5s) + 1s + 15s = 216s`, and no error is returned. -/
theorem C5_roster_failure_uses_max_batches_witness :
    (calcNumOfBatches exampleAgent rosterFailureCluster.nodes).2 = 11 ∧
      (calcMinTimeAssumeRebooted truncSeconds exampleAgent
        rosterFailureCluster).calculator.minTimeToAssumeNodeRebooted = 216 * Second ∧
      (calcMinTimeAssumeRebooted truncSeconds exampleAgent rosterFailureCluster).err = none := by
  have h := C5_roster_failure_uses_max_batches truncSeconds exampleAgent rosterFailureCluster
    "connection refused" rfl
  refine ⟨?_, ?_, h.2.2.2 exampleConfig [] rfl rfl⟩
  · rw [h.1]
  · rw [h.2.1 rfl]; decide

/-! ## Sequences of calls -/

/-- One call of `calcNumOfBatches` on a calculator whose ratchet is at most 11: the
returned value and the new ratchet are at most 11, the ratchet does not decrease, a failed
query returns 11 and a successful one returns the new ratchet. -/
theorem calcNumOfBatches_step (s : safeTimeCalculator) (roster : Except String (List Node))
    (hle : s.highestCalculatedBatchNumber ≤ 11) :
    (calcNumOfBatches s roster).2 ≤ 11 ∧
      (calcNumOfBatches s roster).1.highestCalculatedBatchNumber ≤ 11 ∧
      s.highestCalculatedBatchNumber ≤
        (calcNumOfBatches s roster).1.highestCalculatedBatchNumber ∧
      ((∃ e, roster = .error e) → (calcNumOfBatches s roster).2 = 11) ∧
      ((∃ workers, roster = .ok workers) →
        (calcNumOfBatches s roster).2 =
          (calcNumOfBatches s roster).1.highestCalculatedBatchNumber) := by
  cases roster with
  | error e =>
    rw [calcNumOfBatches_error]
    refine ⟨le_refl _, hle, le_refl _, fun _ => rfl, ?_⟩
    rintro ⟨workers, h⟩
    cases h
  | ok workers =>
    rw [calcNumOfBatches_ok]
    refine ⟨max_le hle (specBatches_le_max _), max_le hle (specBatches_le_max _),
      le_max_left _ _, ?_, fun _ => rfl⟩
    rintro ⟨e, h⟩
    cases h

/-- Every value a sequence of calls returns is at most 11, is 11 when its query failed,
and is at least the initial ratchet when its query succeeded. -/
theorem calcNumOfBatchesCalls_get (rosters : List (Except String (List Node))) :
    ∀ (s : safeTimeCalculator) (j : Nat) (b : Int) (rj : Except String (List Node)),
      s.highestCalculatedBatchNumber ≤ 11 →
      (calcNumOfBatchesCalls s rosters)[j]? = some b → rosters[j]? = some rj →
      b ≤ 11 ∧ ((∃ e, rj = .error e) → b = 11) ∧
        ((∃ workers, rj = .ok workers) → s.highestCalculatedBatchNumber ≤ b) := by
  induction rosters with
  | nil =>
    intro s j b rj _ _ hr
    simp at hr
  | cons r rest ih =>
    intro s j b rj hle hb hr
    obtain ⟨h1, h2, h3, h4, h5⟩ := calcNumOfBatches_step s r hle
    cases j with
    | zero =>
      simp only [calcNumOfBatchesCalls, List.getElem?_cons_zero, Option.some.injEq] at hb hr
      subst hb hr
      refine ⟨h1, h4, ?_⟩
      intro hok
      rw [h5 hok]
      exact h3
    | succ j =>
      simp only [calcNumOfBatchesCalls, List.getElem?_cons_succ] at hb hr
      obtain ⟨g1, g2, g3⟩ := ih _ j b rj h2 hb hr
      exact ⟨g1, g2, fun hok => le_trans h3 (g3 hok)⟩

/-- C6 (as stated) fails: on a newly constructed calculator, a call whose roster query
fails returns 11 and a following call that sees 5 workers returns 2, fewer than the
earlier call. -/
theorem C6_counterexample :
    exampleAgent.highestCalculatedBatchNumber = 0 ∧
      calcNumOfBatchesCalls exampleAgent
        [.error "connection refused", .ok (List.replicate 5 exampleNode)] = [11, 2] ∧
      ¬ ((11 : Int) ≤ 2) := by
  decide

/-- C6 (amended): in every sequence of `calcNumOfBatches` calls on one calculator whose
ratchet starts at most 11 (it starts at 0), the value returned by a call is never smaller
than the value returned by an earlier call, provided the earlier call's roster query
succeeded or the later call's query failed: successful queries ratchet, and a failed query
returns 11, the largest value ever returned, without recording it. -/
theorem C6_calls_non_decreasing_except_after_failure (s : safeTimeCalculator)
    (rosters : List (Except String (List Node))) (i j : Nat) (a b : Int)
    (ri rj : Except String (List Node))
    (hStart : s.highestCalculatedBatchNumber ≤ 11) (hij : i < j)
    (ha : (calcNumOfBatchesCalls s rosters)[i]? = some a)
    (hb : (calcNumOfBatchesCalls s rosters)[j]? = some b)
    (hri : rosters[i]? = some ri) (hrj : rosters[j]? = some rj)
    (hOk : (∃ workers, ri = .ok workers) ∨ (∃ e, rj = .error e)) :
    a ≤ b := by
  induction rosters generalizing s i j with
  | nil => simp at hri
  | cons r rest ih =>
    obtain ⟨h1, h2, h3, h4, h5⟩ := calcNumOfBatches_step s r hStart
    cases j with
    | zero => omega
    | succ j =>
      simp only [calcNumOfBatchesCalls, List.getElem?_cons_succ] at hb hrj
      obtain ⟨g1, g2, g3⟩ := calcNumOfBatchesCalls_get rest _ j b rj h2 hb hrj
      cases i with
      | zero =>
        simp only [calcNumOfBatchesCalls, List.getElem?_cons_zero, Option.some.injEq] at ha hri
        subst ha hri
        cases rj with
        | error e =>
          rw [g2 ⟨e, rfl⟩]
          exact h1
        | ok workers =>
          rcases hOk with hOk | ⟨e, he⟩
          · rw [h5 hOk]
            exact g3 ⟨workers, rfl⟩
          · cases he
      | succ i =>
        simp only [calcNumOfBatchesCalls, List.getElem?_cons_succ] at ha hri
        exact ih _ i j h2 (by omega) ha hb hri hrj

/-- C6 (amended), on a newly constructed calculator that sees 40 workers, then a failed
query, then 5 workers: the returned values are 11, 11 and 11, and the third is not below
the first. -/
theorem C6_calls_non_decreasing_except_after_failure_witness :
    calcNumOfBatchesCalls exampleAgent
        [.ok (List.replicate 40 exampleNode), .error "connection refused",
          .ok (List.replicate 5 exampleNode)] = [11, 11, 11] ∧
      (11 : Int) ≤ 11 :=
  ⟨by decide,
    C6_calls_non_decreasing_except_after_failure exampleAgent
      [.ok (List.replicate 40 exampleNode), .error "connection refused",
        .ok (List.replicate 5 exampleNode)] 0 2 11 11
      (.ok (List.replicate 40 exampleNode)) (.ok (List.replicate 5 exampleNode))
      (by decide) (by decide) (by decide) (by decide) rfl rfl
      (Or.inl ⟨List.replicate 40 exampleNode, rfl⟩)⟩

/-! ## `GetTimeToAssumeNodeRebooted` -/

/-- C7: in agent role `GetTimeToAssumeNodeRebooted` never returns an error and returns
`max(timeToAssumeNodeRebooted, minTimeToAssumeNodeRebooted)`, the larger of the configured
safe time and the locally computed floor; it leaves the calculator unchanged and does not
read the configuration resource (the result is the same for every cluster). -/
theorem C7_agent_getter (s : safeTimeCalculator) (c : Cluster) (hAgent : s.isAgent = true) :
    GetTimeToAssumeNodeRebooted s c =
        (s, max s.timeToAssumeNodeRebooted s.minTimeToAssumeNodeRebooted, none) ∧
      (∀ c2 : Cluster, GetTimeToAssumeNodeRebooted s c2 = GetTimeToAssumeNodeRebooted s c) := by
  have key : ∀ d : Cluster, GetTimeToAssumeNodeRebooted s d =
      (s, max s.timeToAssumeNodeRebooted s.minTimeToAssumeNodeRebooted, none) := by
    intro d
    unfold GetTimeToAssumeNodeRebooted
    simp only [hAgent, Bool.not_true, Bool.false_eq_true, if_false]
    by_cases h : s.timeToAssumeNodeRebooted < s.minTimeToAssumeNodeRebooted
    · rw [if_pos h, max_eq_right (le_of_lt h)]
    · rw [if_neg h, max_eq_left (not_lt.mp h)]
  exact ⟨key c, fun c2 => by rw [key c2, key c]⟩

/-- C7, on an agent that computed the floor 126s with a configured safe time of 180s: the
getter returns 180s and no error. -/
theorem C7_agent_getter_witness :
    (GetTimeToAssumeNodeRebooted
        (calcMinTimeAssumeRebooted truncSeconds exampleAgent exampleCluster).calculator
        exampleCluster).2 = (180 * Second, none) := by
  rw [(C7_agent_getter
    (calcMinTimeAssumeRebooted truncSeconds exampleAgent exampleCluster).calculator
    exampleCluster (by decide)).1]
  decide

/-- C8 (as stated) fails in its last clause: with a stored floor of 126 seconds and a
configured safe time of 9223372037 seconds the duration `9223372037 * time.Second` wraps to
a negative value and the observer returns 126s, not `max(9223372037, 126)` seconds; with a
configured safe time of 180 seconds and a stored floor of 9223372037 seconds it returns
180s. -/
theorem C8_counterexample :
    NewManagerSafeTimeCalculator.isAgent = false ∧
      hugeSafeTimeConfig.Spec.SafeTimeToAssumeNodeRebootedSeconds = 9223372037 ∧
      hugeSafeTimeConfig.Status.MinSafeTimeToAssumeNodeRebootedSeconds = 126 ∧
      (GetTimeToAssumeNodeRebooted NewManagerSafeTimeCalculator hugeSafeTimeCluster).2 =
        (126 * Second, none) ∧
      (126 * Second : Int) ≠ max 9223372037 126 * Second ∧
      hugeFloorConfig.Spec.SafeTimeToAssumeNodeRebootedSeconds = 180 ∧
      hugeFloorConfig.Status.MinSafeTimeToAssumeNodeRebootedSeconds = 9223372037 ∧
      (GetTimeToAssumeNodeRebooted NewManagerSafeTimeCalculator hugeFloorCluster).2 =
        (180 * Second, none) ∧
      (180 * Second : Int) ≠ max 180 9223372037 * Second := by
  decide

/-- C8 (amended): in observer (manager) role `GetTimeToAssumeNodeRebooted` returns
`(0, error)` when the configuration list cannot be fetched or is empty ("SNR config not
found"), returns `(0, error)` when the first configuration's
`Status.MinSafeTimeToAssumeNodeRebootedSeconds` is not positive ("value isn't
initialized"), and otherwise, when `Spec.SafeTimeToAssumeNodeRebootedSeconds` seconds and
`Status.MinSafeTimeToAssumeNodeRebootedSeconds` seconds are both representable as `int64`
durations, returns `max(Spec, Status)` seconds with no error. -/
theorem C8_observer_getter_without_overflow (s : safeTimeCalculator) (c : Cluster)
    (hObserver : s.isAgent = false) :
    (∀ e : String, c.configs = .error e →
        (GetTimeToAssumeNodeRebooted s c).2 = (0, some e)) ∧
      (c.configs = .ok [] →
        (GetTimeToAssumeNodeRebooted s c).2 = (0, some "SNR config not found")) ∧
      (∀ (config : SelfNodeRemediationConfig) (rest : List SelfNodeRemediationConfig),
        c.configs = .ok (config :: rest) →
        ¬ config.Status.MinSafeTimeToAssumeNodeRebootedSeconds > 0 →
        (GetTimeToAssumeNodeRebooted s c).2 =
          (0, some "failed getting MinSafeTimeToAssumeNodeRebootedSeconds, value isn't initialized")) ∧
      (∀ (config : SelfNodeRemediationConfig) (rest : List SelfNodeRemediationConfig),
        c.configs = .ok (config :: rest) →
        config.Status.MinSafeTimeToAssumeNodeRebootedSeconds > 0 →
        inInt64 (config.Spec.SafeTimeToAssumeNodeRebootedSeconds * Second) →
        inInt64 (config.Status.MinSafeTimeToAssumeNodeRebootedSeconds * Second) →
        (GetTimeToAssumeNodeRebooted s c).2 =
          (max config.Spec.SafeTimeToAssumeNodeRebootedSeconds
            config.Status.MinSafeTimeToAssumeNodeRebootedSeconds * Second, none)) := by
  refine ⟨?_, ?_, ?_, ?_⟩
  · intro e he
    unfold GetTimeToAssumeNodeRebooted getConfig
    simp only [hObserver, he, Bool.not_false, if_true]
  · intro he
    unfold GetTimeToAssumeNodeRebooted getConfig
    simp only [hObserver, he, Bool.not_false, if_true]
  · intro config rest hc hn
    unfold GetTimeToAssumeNodeRebooted getConfig getMinSafeTimeSecFromConfig
    simp only [hObserver, hc, Bool.not_false, if_true, if_neg hn]
  · intro config rest hc hp h1 h2
    have hmain : (GetTimeToAssumeNodeRebooted s c).2 =
        (max (mul64 config.Spec.SafeTimeToAssumeNodeRebootedSeconds Second)
          (mul64 config.Status.MinSafeTimeToAssumeNodeRebootedSeconds Second), none) := by
      unfold GetTimeToAssumeNodeRebooted getConfig getMinSafeTimeSecFromConfig
      simp only [hObserver, hc, Bool.not_false, if_true, if_pos hp]
      by_cases h : mul64 config.Spec.SafeTimeToAssumeNodeRebootedSeconds Second <
          mul64 config.Status.MinSafeTimeToAssumeNodeRebootedSeconds Second
      · rw [if_pos h, max_eq_right (le_of_lt h)]
      · rw [if_neg h, max_eq_left (not_lt.mp h)]
    rw [hmain]
    unfold mul64
    rw [wrapInt64_of_inInt64 h1, wrapInt64_of_inInt64 h2]
    have hS : (0 : Int) ≤ Second := by decide
    rw [max_mul_of_nonneg _ _ hS]

/-- C8 (amended), for an observer that reads a configuration with a configured safe time of
180s and a stored floor of 126s: 180s and no error. -/
theorem C8_observer_getter_without_overflow_witness :
    (GetTimeToAssumeNodeRebooted NewManagerSafeTimeCalculator persistedCluster).2 =
      (180 * Second, none) := by
  rw [(C8_observer_getter_without_overflow NewManagerSafeTimeCalculator persistedCluster
    rfl).2.2.2 persistedConfig [] rfl (by decide) (by decide) (by decide)]
  decide

/-! ## Persisting the floor -/

theorem isUpdatedRecently_iff (config : SelfNodeRemediationConfig) (now : Int) :
    isUpdatedRecently config now = true ↔ recentlyUpdated config now := by
  unfold isUpdatedRecently recentlyUpdated timeBeforeAssumingRecentUpdate
  cases h : config.Status.LastUpdateTime with
  | none => simp
  | some t =>
    simp only [decide_eq_true_eq]
    constructor <;> intro h <;> linarith

/-- The floor "Use safer value" leaves in `config`. -/
theorem useSaferValue_floor (n : Int) (config : SelfNodeRemediationConfig) (now : Int) :
    (useSaferValue n config now).Status.MinSafeTimeToAssumeNodeRebootedSeconds =
      if n > config.Status.MinSafeTimeToAssumeNodeRebootedSeconds ∨
          (¬ recentlyUpdated config now ∧
            n ≠ config.Status.MinSafeTimeToAssumeNodeRebootedSeconds) then n
      else config.Status.MinSafeTimeToAssumeNodeRebootedSeconds := by
  have hiff : (n > config.Status.MinSafeTimeToAssumeNodeRebootedSeconds ∨
        ((!isUpdatedRecently config now) = true ∧
          config.Status.MinSafeTimeToAssumeNodeRebootedSeconds ≠ n)) ↔
      (n > config.Status.MinSafeTimeToAssumeNodeRebootedSeconds ∨
        (¬ recentlyUpdated config now ∧
          n ≠ config.Status.MinSafeTimeToAssumeNodeRebootedSeconds)) := by
    rw [← isUpdatedRecently_iff]
    simp only [Bool.not_eq_true', Bool.not_eq_true]
    constructor
    · rintro (h | ⟨h1, h2⟩)
      · exact Or.inl h
      · exact Or.inr ⟨h1, fun e => h2 e.symm⟩
    · rintro (h | ⟨h1, h2⟩)
      · exact Or.inl h
      · exact Or.inr ⟨h1, fun e => h2 e.symm⟩
  unfold useSaferValue
  simp only []
  by_cases h : n > config.Status.MinSafeTimeToAssumeNodeRebootedSeconds ∨
      ((!isUpdatedRecently config now) = true ∧
        config.Status.MinSafeTimeToAssumeNodeRebootedSeconds ≠ n)
  · rw [if_pos h, if_pos (hiff.mp h)]
  · rw [if_neg h, if_neg (fun h2 => h (hiff.mpr h2))]

theorem useSaferValue_frame (n : Int) (config : SelfNodeRemediationConfig) (now : Int) :
    (useSaferValue n config now).Spec = config.Spec ∧
      (useSaferValue n config now).Name = config.Name ∧
      (useSaferValue n config now).Status.Conditions = config.Status.Conditions ∧
      (useSaferValue n config now).Status.LastUpdateTime = config.Status.LastUpdateTime := by
  unfold useSaferValue
  simp only []
  split <;> exact ⟨rfl, rfl, rfl, rfl⟩

/-- What `manageSafeRebootTimeInConfiguration` leaves in `config` and, when the patch does
not fail, on the cluster: the floor of "Use safer value" and the conditions of "Manage
condition". -/
theorem manageSafeRebootTimeInConfiguration_outcome (toSeconds : Int → Int) (c : Cluster)
    (minTime : Int) (config : SelfNodeRemediationConfig)
    (rest : List SelfNodeRemediationConfig) (hConfigs : c.configs = .ok (config :: rest)) :
    ∃ final : SelfNodeRemediationConfig,
      (manageSafeRebootTimeInConfiguration toSeconds c minTime).config = some final ∧
      final.Spec = config.Spec ∧
      final.Status.MinSafeTimeToAssumeNodeRebootedSeconds =
        (useSaferValue (toSeconds minTime) config
          c.now).Status.MinSafeTimeToAssumeNodeRebootedSeconds ∧
      final.Status.Conditions =
        SetStatusCondition config.Status.Conditions
          (if isSafeTimeOverridden (toSeconds minTime) config then overriddenCondition
            else validCondition) c.now ∧
      (c.patchError = none →
        ∃ stored : SelfNodeRemediationConfig,
          (manageSafeRebootTimeInConfiguration toSeconds c minTime).cluster.configs =
            .ok (stored :: rest) ∧
          stored.Spec = config.Spec ∧
          stored.Status.MinSafeTimeToAssumeNodeRebootedSeconds =
            final.Status.MinSafeTimeToAssumeNodeRebootedSeconds ∧
          (stored.Status.Conditions = final.Status.Conditions ∨
            stored.Status.Conditions = final.Status.Conditions.map serializeCondition)) := by
  obtain ⟨f1, f2, f3, f4⟩ := useSaferValue_frame (toSeconds minTime) config c.now
  have hov : isSafeTimeOverridden (toSeconds minTime)
      (useSaferValue (toSeconds minTime) config c.now) =
      isSafeTimeOverridden (toSeconds minTime) config := by
    unfold isSafeTimeOverridden
    rw [f1]
  have hget : getConfig c = .ok config := by
    unfold getConfig
    rw [hConfigs]
  unfold manageSafeRebootTimeInConfiguration
  simp only [hget]
  by_cases hchg : manageCondition (toSeconds minTime)
      (useSaferValue (toSeconds minTime) config c.now) c.now ≠ config
  · rw [if_pos hchg]
    cases hp : c.patchError with
    | some e =>
      refine ⟨_, rfl, ?_, rfl, ?_, ?_⟩
      · exact f1
      · show SetStatusCondition _ _ _ = _
        rw [f3, hov]
      · intro h; cases h
    | none =>
      refine ⟨_, rfl, ?_, rfl, ?_, ?_⟩
      · exact f1
      · show SetStatusCondition _ _ _ = _
        rw [f3, hov]
      · intro _
        refine ⟨storedCopy (stampLastUpdateTime (manageCondition (toSeconds minTime)
          (useSaferValue (toSeconds minTime) config c.now) c.now) c.now), ?_, ?_, rfl,
          Or.inr rfl⟩
        · unfold Cluster.patched
          simp only [hConfigs]
        · exact f1
  · rw [if_neg hchg]
    have heq := not_not.mp hchg
    refine ⟨_, rfl, ?_, rfl, ?_, ?_⟩
    · exact f1
    · show SetStatusCondition _ _ _ = _
      rw [f3, hov]
    · intro _
      refine ⟨config, hConfigs, rfl, ?_, Or.inl ?_⟩
      · rw [heq]
      · rw [heq]

/-! ## The warning condition -/

theorem updateCondition_fields (existing newCondition : Condition) (now : Int) :
    (updateCondition existing newCondition now).type = existing.type ∧
      (updateCondition existing newCondition now).Status = newCondition.Status ∧
      (updateCondition existing newCondition now).Reason = newCondition.Reason ∧
      (updateCondition existing newCondition now).Message = newCondition.Message := by
  unfold updateCondition
  by_cases h : existing.Status ≠ newCondition.Status
  · simp only [if_pos h, and_self]
  · simp only [if_neg h, and_true, true_and]
    exact not_not.mp h

/-- After `meta.SetStatusCondition` the condition of the new condition's type carries its
status, reason and message. -/
theorem FindStatusCondition_SetStatusCondition (conditions : List Condition)
    (newCondition : Condition) (now : Int) :
    ∃ found : Condition,
      FindStatusCondition (SetStatusCondition conditions newCondition now)
          newCondition.type = some found ∧
        found.Status = newCondition.Status ∧ found.Reason = newCondition.Reason ∧
        found.Message = newCondition.Message := by
  induction conditions with
  | nil =>
    unfold SetStatusCondition FindStatusCondition
    cases h : newCondition.LastTransitionTime with
    | none =>
      exact ⟨{ newCondition with LastTransitionTime := some now }, by simp [List.find?],
        rfl, rfl, rfl⟩
    | some t => exact ⟨newCondition, by simp [List.find?], rfl, rfl, rfl⟩
  | cons c rest ih =>
    obtain ⟨u1, u2, u3, u4⟩ := updateCondition_fields c newCondition now
    unfold SetStatusCondition
    by_cases h : (c.type == newCondition.type) = true
    · rw [if_pos h]
      refine ⟨updateCondition c newCondition now, ?_, u2, u3, u4⟩
      unfold FindStatusCondition
      rw [List.find?_cons, u1, h]
    · rw [if_neg h]
      obtain ⟨found, hf, g⟩ := ih
      refine ⟨found, ?_, g⟩
      unfold FindStatusCondition at hf ⊢
      rw [List.find?_cons]
      simp only [Bool.not_eq_true] at h
      rw [h]
      exact hf

theorem isSafeTimeOverridden_iff (n : Int) (config : SelfNodeRemediationConfig) :
    isSafeTimeOverridden n config = true ↔
      (config.Spec.SafeTimeToAssumeNodeRebootedSeconds > 0 ∧
        n > config.Spec.SafeTimeToAssumeNodeRebootedSeconds) := by
  unfold isSafeTimeOverridden
  simp only [decide_eq_true_eq]

/-- C9: in `manageSafeRebootTimeInConfiguration`, with new floor `n` seconds, stored floor
`p` seconds and "recently updated" meaning `LastUpdateTime` is set and less than 15
seconds old, the stored floor is overwritten with `n` if and only if `n > p` or (not
recently updated and `n != p`); otherwise it stays `p`. Hence a smaller `n` within the
15-second window does not overwrite `p`, and any differing `n` after the window does. The
same floor is on the cluster when the patch does not fail. -/
theorem C9_floor_overwrite_rule (toSeconds : Int → Int) (c : Cluster) (minTime : Int)
    (config : SelfNodeRemediationConfig) (rest : List SelfNodeRemediationConfig)
    (hConfigs : c.configs = .ok (config :: rest)) :
    ∃ final : SelfNodeRemediationConfig,
      (manageSafeRebootTimeInConfiguration toSeconds c minTime).config = some final ∧
      final.Status.MinSafeTimeToAssumeNodeRebootedSeconds =
        (if toSeconds minTime > config.Status.MinSafeTimeToAssumeNodeRebootedSeconds ∨
            (¬ recentlyUpdated config c.now ∧
              toSeconds minTime ≠ config.Status.MinSafeTimeToAssumeNodeRebootedSeconds) then
          toSeconds minTime
        else config.Status.MinSafeTimeToAssumeNodeRebootedSeconds) ∧
      (recentlyUpdated config c.now →
        toSeconds minTime < config.Status.MinSafeTimeToAssumeNodeRebootedSeconds →
        final.Status.MinSafeTimeToAssumeNodeRebootedSeconds =
          config.Status.MinSafeTimeToAssumeNodeRebootedSeconds) ∧
      (¬ recentlyUpdated config c.now →
        toSeconds minTime ≠ config.Status.MinSafeTimeToAssumeNodeRebootedSeconds →
        final.Status.MinSafeTimeToAssumeNodeRebootedSeconds = toSeconds minTime) ∧
      (c.patchError = none →
        ∃ stored : SelfNodeRemediationConfig,
          (manageSafeRebootTimeInConfiguration toSeconds c minTime).cluster.configs =
            .ok (stored :: rest) ∧
          stored.Status.MinSafeTimeToAssumeNodeRebootedSeconds =
            final.Status.MinSafeTimeToAssumeNodeRebootedSeconds) := by
  obtain ⟨final, h1, _, h3, _, h5⟩ :=
    manageSafeRebootTimeInConfiguration_outcome toSeconds c minTime config rest hConfigs
  rw [useSaferValue_floor] at h3
  refine ⟨final, h1, h3, ?_, ?_, ?_⟩
  · intro hr hlt
    rw [h3, if_neg]
    rintro (h | ⟨h, _⟩)
    · exact absurd h (not_lt.mpr (le_of_lt hlt))
    · exact h hr
  · intro hr hne
    rw [h3, if_pos (Or.inr ⟨hr, hne⟩)]
  · intro hp
    obtain ⟨stored, g1, _, g3, _⟩ := h5 hp
    exact ⟨stored, g1, g3⟩

/-- C9, with a stored floor of 126s: a new floor of 100s leaves 126 in place 10 seconds
after the last update and replaces it by 100 after 20 seconds. -/
theorem C9_floor_overwrite_rule_witness :
    ((manageSafeRebootTimeInConfiguration truncSeconds recentCluster (100 * Second)).config.map
        (fun config => config.Status.MinSafeTimeToAssumeNodeRebootedSeconds) = some 126) ∧
      ((manageSafeRebootTimeInConfiguration truncSeconds staleCluster (100 * Second)).config.map
        (fun config => config.Status.MinSafeTimeToAssumeNodeRebootedSeconds) = some 100) := by
  constructor
  · obtain ⟨final, h1, _, h3, _, _⟩ :=
      C9_floor_overwrite_rule truncSeconds recentCluster (100 * Second) persistedConfig [] rfl
    rw [h1, Option.map_some', h3 (by decide) (by decide)]
    rfl
  · obtain ⟨final, h1, _, _, h4, _⟩ :=
      C9_floor_overwrite_rule truncSeconds staleCluster (100 * Second) persistedConfig [] rfl
    rw [h1, Option.map_some', h4 (by decide) (by decide)]
    rfl

theorem FindStatusCondition_map_serializeCondition (conditions : List Condition)
    (conditionType : String) :
    FindStatusCondition (conditions.map serializeCondition) conditionType =
      (FindStatusCondition conditions conditionType).map serializeCondition := by
  unfold FindStatusCondition
  induction conditions with
  | nil => rfl
  | cons head tail ih =>
    rw [List.map_cons, List.find?_cons, List.find?_cons]
    have htype : (serializeCondition head).type = head.type := rfl
    rw [htype]
    cases (head.type == conditionType)
    · exact ih
    · rfl

/-- C10: `manageSafeRebootTimeInConfiguration` sets the safe-time-overridden warning
condition when the configured `Spec.SafeTimeToAssumeNodeRebootedSeconds` is positive and
below the computed floor in seconds, and clears it otherwise: after the call the condition
is set (status True, reason SafeTimeIsInvalid) if and only if `configured > 0` and
`floor > configured`, and is otherwise cleared (status False, reason SafeTimeIsValid),
whatever happened to the stored floor. When the patch does not fail the resource on the
cluster carries the condition with the same status and reason. -/
theorem C10_warning_condition (toSeconds : Int → Int) (c : Cluster) (minTime : Int)
    (config : SelfNodeRemediationConfig) (rest : List SelfNodeRemediationConfig)
    (hConfigs : c.configs = .ok (config :: rest)) :
    ∃ (final : SelfNodeRemediationConfig) (condition : Condition),
      (manageSafeRebootTimeInConfiguration toSeconds c minTime).config = some final ∧
      FindStatusCondition final.Status.Conditions
        SafeTimeToAssumeNodeRebootedOverriddenConditionType = some condition ∧
      ((condition.Status = ConditionStatus.ConditionTrue ∧
          condition.Reason = "SafeTimeIsInvalid") ↔
        (config.Spec.SafeTimeToAssumeNodeRebootedSeconds > 0 ∧
          toSeconds minTime > config.Spec.SafeTimeToAssumeNodeRebootedSeconds)) ∧
      (¬ (config.Spec.SafeTimeToAssumeNodeRebootedSeconds > 0 ∧
            toSeconds minTime > config.Spec.SafeTimeToAssumeNodeRebootedSeconds) →
        condition.Status = ConditionStatus.ConditionFalse ∧
          condition.Reason = "SafeTimeIsValid") ∧
      (c.patchError = none →
        ∃ (stored : SelfNodeRemediationConfig) (storedCondition : Condition),
          (manageSafeRebootTimeInConfiguration toSeconds c minTime).cluster.configs =
            .ok (stored :: rest) ∧
          FindStatusCondition stored.Status.Conditions
            SafeTimeToAssumeNodeRebootedOverriddenConditionType = some storedCondition ∧
          storedCondition.Status = condition.Status ∧
          storedCondition.Reason = condition.Reason) := by
  obtain ⟨final, h1, _, _, h4, h5⟩ :=
    manageSafeRebootTimeInConfiguration_outcome toSeconds c minTime config rest hConfigs
  have hiff := isSafeTimeOverridden_iff (toSeconds minTime) config
  have hstored : ∀ condition : Condition,
      FindStatusCondition final.Status.Conditions
        SafeTimeToAssumeNodeRebootedOverriddenConditionType = some condition →
      c.patchError = none →
      ∃ (stored : SelfNodeRemediationConfig) (storedCondition : Condition),
        (manageSafeRebootTimeInConfiguration toSeconds c minTime).cluster.configs =
          .ok (stored :: rest) ∧
        FindStatusCondition stored.Status.Conditions
          SafeTimeToAssumeNodeRebootedOverriddenConditionType = some storedCondition ∧
        storedCondition.Status = condition.Status ∧
        storedCondition.Reason = condition.Reason := by
    intro condition hf hp
    obtain ⟨stored, k1, _, _, k4⟩ := h5 hp
    rcases k4 with k4 | k4
    · exact ⟨stored, condition, k1, by rw [k4]; exact hf, rfl, rfl⟩
    · refine ⟨stored, serializeCondition condition, k1, ?_, rfl, rfl⟩
      rw [k4, FindStatusCondition_map_serializeCondition, hf]
      rfl
  by_cases hov : isSafeTimeOverridden (toSeconds minTime) config = true
  · rw [if_pos hov] at h4
    obtain ⟨found, hf, g1, g2, _⟩ :=
      FindStatusCondition_SetStatusCondition config.Status.Conditions overriddenCondition c.now
    rw [← h4] at hf
    refine ⟨final, found, h1, hf, ?_, ?_, hstored found hf⟩
    · exact ⟨fun _ => hiff.mp hov, fun _ => ⟨g1, g2⟩⟩
    · intro hn
      exact absurd (hiff.mp hov) hn
  · rw [if_neg hov] at h4
    obtain ⟨found, hf, g1, g2, _⟩ :=
      FindStatusCondition_SetStatusCondition config.Status.Conditions validCondition c.now
    rw [← h4] at hf
    have hn : ¬ (config.Spec.SafeTimeToAssumeNodeRebootedSeconds > 0 ∧
        toSeconds minTime > config.Spec.SafeTimeToAssumeNodeRebootedSeconds) :=
      fun h => hov (hiff.mpr h)
    refine ⟨final, found, h1, hf, ?_, ?_, hstored found hf⟩
    · constructor
      · rintro ⟨hs, _⟩
        rw [g1] at hs
        cases hs
      · intro h
        exact absurd h hn
    · intro _
      exact ⟨g1, g2⟩

/-- C10, with a floor of 126s: the condition is set for a configured safe time of 60s and
cleared for a configured safe time of 180s. -/
theorem C10_warning_condition_witness :
    (((manageSafeRebootTimeInConfiguration truncSeconds shortSafeTimeCluster
          (126 * Second)).config.bind
        (fun config => FindStatusCondition config.Status.Conditions
          SafeTimeToAssumeNodeRebootedOverriddenConditionType)).map
        (fun condition => (condition.Status, condition.Reason)) =
      some (ConditionStatus.ConditionTrue, "SafeTimeIsInvalid")) ∧
    (((manageSafeRebootTimeInConfiguration truncSeconds recentCluster
          (126 * Second)).config.bind
        (fun config => FindStatusCondition config.Status.Conditions
          SafeTimeToAssumeNodeRebootedOverriddenConditionType)).map
        (fun condition => (condition.Status, condition.Reason)) =
      some (ConditionStatus.ConditionFalse, "SafeTimeIsValid")) := by
  constructor
  · obtain ⟨final, condition, h1, h2, h3, _, _⟩ :=
      C10_warning_condition truncSeconds shortSafeTimeCluster (126 * Second)
        shortSafeTimeConfig [] rfl
    obtain ⟨g1, g2⟩ := h3.mpr (by decide)
    rw [h1, Option.some_bind, h2, Option.map_some', g1, g2]
  · obtain ⟨final, condition, h1, h2, _, h4, _⟩ :=
      C10_warning_condition truncSeconds recentCluster (126 * Second) persistedConfig [] rfl
    obtain ⟨g1, g2⟩ := h4 (by decide)
    rw [h1, Option.some_bind, h2, Option.map_some', g1, g2]

/-! ## The health decision -/

/-- C11: for every peer verdict whose reason is one of the six handled reasons, every value
`r` of `isOtherMastersCanBeReached` and every diagnostics outcome `d`, `IsMasterHealthy`
matches the decision table: `UnHealthyBecauseCRFound` gives false,
`UnHealthyBecauseNodeIsIsolated` gives `r`, `HealthyBecauseErrorsThresholdNotReached` and
`HealthyBecauseCRNotFound` give true, `HealthyBecauseMostPeersCantAccessAPIServer` gives
`d`, and `HealthyBecauseNoPeersWereFound` gives `d AND r`. -/
theorem C11_decision_table (manager : Manager) (probes : Probes) (response : Response)
    (r : Bool) :
    (response.Reason = UnHealthyBecauseCRFound →
        IsMasterHealthy manager probes response r = some false) ∧
      (response.Reason = UnHealthyBecauseNodeIsIsolated →
        IsMasterHealthy manager probes response r = some r) ∧
      (response.Reason = HealthyBecauseErrorsThresholdNotReached →
        IsMasterHealthy manager probes response r = some true) ∧
      (response.Reason = HealthyBecauseCRNotFound →
        IsMasterHealthy manager probes response r = some true) ∧
      (response.Reason = HealthyBecauseMostPeersCantAccessAPIServer →
        ∀ (d : Bool) (err : Option String), isDiagnosticsPassed manager probes = some (d, err) →
          IsMasterHealthy manager probes response r = some d) ∧
      (response.Reason = HealthyBecauseNoPeersWereFound →
        ∀ (d : Bool) (err : Option String), isDiagnosticsPassed manager probes = some (d, err) →
          IsMasterHealthy manager probes response r = some (d && r)) := by
  refine ⟨?_, ?_, ?_, ?_, ?_, ?_⟩
  · intro h
    unfold IsMasterHealthy
    rw [h, if_pos rfl]
  · intro h
    unfold IsMasterHealthy
    rw [h, if_neg (by decide), if_pos rfl]
  · intro h
    unfold IsMasterHealthy
    rw [h, if_neg (by decide), if_neg (by decide), if_pos (Or.inl rfl)]
  · intro h
    unfold IsMasterHealthy
    rw [h, if_neg (by decide), if_neg (by decide), if_pos (Or.inr rfl)]
  · intro h d err hd
    unfold IsMasterHealthy
    rw [h, if_neg (by decide), if_neg (by decide), if_neg (by decide), if_pos rfl, hd]
  · intro h d err hd
    unfold IsMasterHealthy
    rw [h, if_neg (by decide), if_neg (by decide), if_neg (by decide), if_neg (by decide),
      if_pos rfl, hd]
    cases d <;> rfl

/-- C11, for the reason "no peers were found" when the diagnostics pass: the verdict is
the value of `isOtherMastersCanBeReached`, true and false. -/
theorem C11_decision_table_witness :
    IsMasterHealthy exampleManager passingProbesDrawZero
        { IsHealthy := true, Reason := HealthyBecauseNoPeersWereFound } true = some true ∧
      IsMasterHealthy exampleManager passingProbesDrawZero
        { IsHealthy := true, Reason := HealthyBecauseNoPeersWereFound } false = some false :=
  ⟨(C11_decision_table exampleManager passingProbesDrawZero
      { IsHealthy := true, Reason := HealthyBecauseNoPeersWereFound } true).2.2.2.2.2 rfl
      true none (by decide),
    (C11_decision_table exampleManager passingProbesDrawZero
      { IsHealthy := true, Reason := HealthyBecauseNoPeersWereFound } false).2.2.2.2.2 rfl
      true none (by decide)⟩

/-- C12: for every verdict whose reason is not one of the six reasons of the decision
table, `IsMasterHealthy` returns false for both values of `isOtherMastersCanBeReached`,
whatever the verdict's `IsHealthy` field, and without running the diagnostics: the result
is false for every answer of the probes, also those on which the diagnostics would not
return. -/
theorem C12_unknown_reason_unhealthy (manager : Manager) (probes : Probes)
    (response : Response) (r : Bool)
    (h1 : response.Reason ≠ UnHealthyBecauseCRFound)
    (h2 : response.Reason ≠ UnHealthyBecauseNodeIsIsolated)
    (h3 : response.Reason ≠ HealthyBecauseErrorsThresholdNotReached)
    (h4 : response.Reason ≠ HealthyBecauseCRNotFound)
    (h5 : response.Reason ≠ HealthyBecauseMostPeersCantAccessAPIServer)
    (h6 : response.Reason ≠ HealthyBecauseNoPeersWereFound) :
    IsMasterHealthy manager probes response r = some false := by
  unfold IsMasterHealthy
  rw [if_neg h1, if_neg h2, if_neg (not_or.mpr ⟨h3, h4⟩), if_neg h5, if_neg h6]

/-- C12, for the reasons `UnHealthyBecausePeersResponse` and an unknown text, with
`IsHealthy` set and on probes on which the diagnostics would panic: false. -/
theorem C12_unknown_reason_unhealthy_witness :
    IsMasterHealthy exampleManager unreachableProbes
        { IsHealthy := true, Reason := UnHealthyBecausePeersResponse } true = some false ∧
      IsMasterHealthy exampleManager unreachableProbes
        { IsHealthy := true, Reason := "some other reason" } false = some false :=
  ⟨C12_unknown_reason_unhealthy exampleManager unreachableProbes
      { IsHealthy := true, Reason := UnHealthyBecausePeersResponse } true
      (by decide) (by decide) (by decide) (by decide) (by decide) (by decide),
    C12_unknown_reason_unhealthy exampleManager unreachableProbes
      { IsHealthy := true, Reason := "some other reason" } false
      (by decide) (by decide) (by decide) (by decide) (by decide) (by decide)⟩

/-! ## The diagnostics -/

/-- The regression branch of `isDiagnosticsPassed` is never reached: when the node was
reachable at startup and the dial fails now, `isHasInternetAccess` panics. -/
theorem isDiagnosticsPassed_regression (manager : Manager) (probes : Probes)
    (hStartup : manager.isHasInternetAccess = true) (hDial : probes.dialSucceeds = false) :
    isDiagnosticsPassed manager probes = none := by
  unfold isDiagnosticsPassed isHasInternetAccess
  simp only [hStartup, hDial, if_true, Bool.false_eq_true, if_false]

/-- Whenever `isDiagnosticsPassed` returns, it returns a nil error; it returns false when
the kubelet probe fails, and otherwise the result is the random draw. -/
theorem isDiagnosticsPassed_returns (manager : Manager) (probes : Probes)
    (hNoPanic : manager.isHasInternetAccess = false ∨ probes.dialSucceeds = true) :
    isDiagnosticsPassed manager probes =
      some (decide (probes.curlError = none) && decide (probes.randIntn = 0), none) := by
  unfold isDiagnosticsPassed isHasInternetAccess isKubeletServiceRunning
  cases hs : manager.isHasInternetAccess <;> cases hd : probes.dialSucceeds <;>
    cases hc : probes.curlError <;> simp_all

/-- C18 (the code at the failing input): the node was reachable at startup and the dial
fails now; `isDiagnosticsPassed` does not return `(false, nil)`, it panics in the deferred
`con.Close()` of `isHasInternetAccess`. When the node was not reachable at startup the
dial is not made, and the diagnostics can pass. -/
theorem C18_regression_panics :
    exampleManager.isHasInternetAccess = true ∧ unreachableProbes.dialSucceeds = false ∧
      isHasInternetAccess unreachableProbes = none ∧
      isDiagnosticsPassed exampleManager unreachableProbes = none ∧
      isDiagnosticsPassed exampleManager unreachableProbes ≠ some (false, none) ∧
      isDiagnosticsPassed { exampleManager with isHasInternetAccess := false }
        unreachableProbes = some (true, none) := by
  decide

/-- C19 (the code at the failing input): two evaluations with the same verdict reason, the
same `isOtherMastersCanBeReached`, the same startup reachability and the same probe
outcomes, which differ only in the number `rand.Intn(2)` draws, return different results
from `isDiagnosticsPassed` and from `IsMasterHealthy`. -/
theorem C19_decision_depends_on_random_draw :
    passingProbesDrawOne = { passingProbesDrawZero with randIntn := 1 } ∧
      isDiagnosticsPassed exampleManager passingProbesDrawZero = some (true, none) ∧
      isDiagnosticsPassed exampleManager passingProbesDrawOne = some (false, none) ∧
      IsMasterHealthy exampleManager passingProbesDrawZero
        { IsHealthy := true, Reason := HealthyBecauseMostPeersCantAccessAPIServer } true =
          some true ∧
      IsMasterHealthy exampleManager passingProbesDrawOne
        { IsHealthy := true, Reason := HealthyBecauseMostPeersCantAccessAPIServer } true =
          some false := by
  decide

/-! ## Role classification -/

theorem classifyNodes_ok (used : Node → String) (items : List Node) :
    ∀ mapping : List (String × Role),
      (∀ node ∈ items, hasRoleMarker used node = true) →
      classifyNodes used mapping items =
        .ok ((items.map (fun node => (node.Name, roleOf node))).reverse ++ mapping) := by
  induction items with
  | nil => intro mapping _; rfl
  | cons node rest ih =>
    intro mapping h
    have hn := h node (List.mem_cons_self _ _)
    have hr : ∀ n ∈ rest, hasRoleMarker used n = true :=
      fun n hmem => h n (List.mem_cons_of_mem _ hmem)
    unfold classifyNodes
    by_cases hw : hasLabel node WorkerLabelName = true
    · rw [if_pos hw, ih _ hr]
      simp [roleOf, hw]
    · have hm : hasLabel node (used node) = true := by
        unfold hasRoleMarker at hn
        simp only [Bool.or_eq_true] at hn
        rcases hn with h1 | h1
        · exact absurd h1 hw
        · exact h1
      rw [if_neg hw, if_pos hm, ih _ hr]
      simp [roleOf, hw]

theorem classifyNodes_error (used : Node → String) (items : List Node) :
    ∀ mapping : List (String × Role),
      (∃ node ∈ items, hasRoleMarker used node = false) →
      ∃ final, classifyNodes used mapping items = .error final := by
  induction items with
  | nil =>
    rintro mapping ⟨node, hmem, _⟩
    cases hmem
  | cons node rest ih =>
    intro mapping h
    unfold classifyNodes
    by_cases hw : hasLabel node WorkerLabelName = true
    · rw [if_pos hw]
      apply ih
      obtain ⟨n, hmem, hn⟩ := h
      rcases List.mem_cons.mp hmem with rfl | hmem
      · unfold hasRoleMarker at hn
        rw [hw] at hn
        cases hn
      · exact ⟨n, hmem, hn⟩
    · rw [if_neg hw]
      by_cases hm : hasLabel node (used node) = true
      · rw [if_pos hm]
        apply ih
        obtain ⟨n, hmem, hn⟩ := h
        rcases List.mem_cons.mp hmem with rfl | hmem
        · unfold hasRoleMarker at hn
          rw [hm] at hn
          simp at hn
        · exact ⟨n, hmem, hn⟩
      · rw [if_neg hm]
        exact ⟨mapping, rfl⟩

theorem lookup_of_mem_nodup (l : List (String × Role)) (k : String) (v : Role)
    (hnodup : (l.map Prod.fst).Nodup) (hmem : (k, v) ∈ l) : l.lookup k = some v := by
  induction l with
  | nil => cases hmem
  | cons head tail ih =>
    obtain ⟨k1, v1⟩ := head
    rw [List.map_cons, List.nodup_cons] at hnodup
    rw [List.lookup_cons]
    rcases List.mem_cons.mp hmem with heq | hmem2
    · cases heq
      simp
    · have hne : k ≠ k1 := by
        intro hk
        rw [hk] at hmem2
        exact hnodup.1 (List.mem_map.mpr ⟨(k1, v), hmem2, rfl⟩)
      have hb : (k == k1) = false := by simpa using hne
      rw [hb]
      exact ih hnodup.2 hmem2

/-- What `initializeManager` does on a listed roster, starting from an empty map: it
panics when every node has a role marker, the current node is in the roster and the dial
of `isHasInternetAccess` fails; it succeeds when the dial succeeds instead, with every node
mapped to its role and `nodeRole` the role mapped to the current node; it returns the
initialization error when a node has no role marker or the current node is not listed. -/
theorem initializeManager_outcome (used : Node → String) (manager : Manager)
    (items : List Node) (probes : Probes) (hEmpty : manager.nodeNameRoleMapping = []) :
    (((∀ node ∈ items, hasRoleMarker used node = true) ∧
        manager.nodeName ∈ items.map (fun node => node.Name)) →
      (probes.dialSucceeds = false →
        initializeManager used manager (.ok items) probes = none) ∧
      (probes.dialSucceeds = true →
        ∃ final : Manager,
          initializeManager used manager (.ok items) probes = some (final, none) ∧
          final.nodeNameRoleMapping.lookup manager.nodeName = some final.nodeRole ∧
          ((items.map (fun node => node.Name)).Nodup →
            ∀ node ∈ items, final.nodeNameRoleMapping.lookup node.Name = some (roleOf node)))) ∧
    (¬ ((∀ node ∈ items, hasRoleMarker used node = true) ∧
        manager.nodeName ∈ items.map (fun node => node.Name)) →
      ∃ final : Manager,
        initializeManager used manager (.ok items) probes = some (final, some initErrorText)) := by
  constructor
  · rintro ⟨hall, hname⟩
    have hc := classifyNodes_ok used items [] hall
    rw [List.append_nil] at hc
    have hlook : ∃ role, ((items.map (fun node => (node.Name, roleOf node))).reverse).lookup
        manager.nodeName = some role := by
      cases hl : ((items.map (fun node => (node.Name, roleOf node))).reverse).lookup
          manager.nodeName with
      | some role => exact ⟨role, rfl⟩
      | none =>
        exfalso
        rw [List.lookup_eq_none_iff] at hl
        obtain ⟨node, hmem, hn⟩ := List.mem_map.mp hname
        have := hl (node.Name, roleOf node)
          (List.mem_reverse.mpr (List.mem_map.mpr ⟨node, hmem, rfl⟩))
        simp [hn] at this
    obtain ⟨role, hrole⟩ := hlook
    constructor
    · intro hd
      unfold initializeManager isHasInternetAccess
      simp only [hEmpty, hc, hrole, hd, Bool.false_eq_true, if_false]
    · intro hd
      refine ⟨{ manager with
          nodeNameRoleMapping := (items.map (fun node => (node.Name, roleOf node))).reverse
          nodeRole := role
          isHasInternetAccess := true }, ?_, hrole, ?_⟩
      · unfold initializeManager isHasInternetAccess
        simp only [hEmpty, hc, hrole, hd, if_true]
      · intro hnodup node hmem
        apply lookup_of_mem_nodup
        · rw [List.map_reverse, List.nodup_reverse, List.map_map]
          exact hnodup
        · exact List.mem_reverse.mpr (List.mem_map.mpr ⟨node, hmem, rfl⟩)
  · intro hnot
    by_cases hall : ∀ node ∈ items, hasRoleMarker used node = true
    · have hname : manager.nodeName ∉ items.map (fun node => node.Name) :=
        fun h => hnot ⟨hall, h⟩
      have hc := classifyNodes_ok used items [] hall
      rw [List.append_nil] at hc
      have hl : ((items.map (fun node => (node.Name, roleOf node))).reverse).lookup
          manager.nodeName = none := by
        rw [List.lookup_eq_none_iff]
        rintro ⟨k, v⟩ hp
        obtain ⟨node, hmem, heq⟩ := List.mem_map.mp (List.mem_reverse.mp hp)
        cases heq
        simp only [bne_iff_ne, ne_eq]
        intro h
        exact hname (List.mem_map.mpr ⟨node, hmem, h.symm⟩)
      unfold initializeManager
      simp only [hEmpty, hc, hl]
      exact ⟨_, rfl⟩
    · have hex : ∃ node ∈ items, hasRoleMarker used node = false := by
        by_contra hcon
        apply hall
        intro node hmem
        cases hm : hasRoleMarker used node with
        | true => rfl
        | false => exact absurd ⟨node, hmem, hm⟩ hcon
      obtain ⟨final, hc⟩ := classifyNodes_error used items [] hex
      unfold initializeManager
      simp only [hEmpty, hc]
      exact ⟨_, rfl⟩

/-- C13 (the code at the failing input): every node of the roster carries a role marker
and the current node `master-0` is listed, but the dial to the external address fails:
`initializeManager` neither succeeds nor returns the initialization error, it panics in
`isHasInternetAccess`. With a successful dial the same call succeeds, maps `worker-0` to
`Worker` and `master-0` to `Master` and sets `nodeRole` to `Master`. -/
theorem C13_initialization_panics_without_reachability :
    (∀ node ∈ exampleRoster, hasRoleMarker exampleUsedControlPlaneLabel node = true) ∧
      (NewManager "master-0").nodeName ∈ exampleRoster.map (fun node => node.Name) ∧
      initializeManager exampleUsedControlPlaneLabel (NewManager "master-0")
        (.ok exampleRoster) unreachableProbes = none ∧
      initializeManager exampleUsedControlPlaneLabel (NewManager "master-0")
        (.ok exampleRoster) passingProbesDrawZero =
          some ({ nodeName := "master-0"
                  nodeRole := Role.Master
                  nodeNameRoleMapping := [("master-0", Role.Master), ("worker-0", Role.Worker)]
                  isHasInternetAccess := true }, none) := by
  decide

/-! ## The fake watchdog -/

/-- C14: `FakeDog.Reset` is an idempotent re-arm. When the status is already Armed it
changes nothing (status, cancel token and the keep-alive tasks are unchanged, no task is
started). When the status is not Armed it invokes the stored stop function (its context is
cancelled), sets the status to Armed and starts exactly one keep-alive task, on a new
context whose cancel function becomes the stored one. So after any Reset the status is
Armed and a second Reset in a row has no further effect. -/
theorem C14_reset_idempotent (swd : synchronizedWatchdog) :
    (swd.status = WatchdogStatus.Armed → FakeDog.Reset swd = some swd) ∧
      (swd.status ≠ WatchdogStatus.Armed → ∀ ctx : Nat, swd.stop = some ctx →
        FakeDog.Reset swd =
          some { swd with
            status := WatchdogStatus.Armed
            cancelled := ctx :: swd.cancelled
            contexts := swd.contexts + 1
            stop := some swd.contexts
            tasks := swd.tasks ++
              [{ feedCtx := swd.contexts, period := Int.tdiv swd.timeout 3 }] }) ∧
      (∀ after : synchronizedWatchdog, FakeDog.Reset swd = some after →
        after.status = WatchdogStatus.Armed ∧ FakeDog.Reset after = some after ∧
          (swd.status ≠ WatchdogStatus.Armed → after.tasks.length = swd.tasks.length + 1)) := by
  refine ⟨?_, ?_, ?_⟩
  · intro h
    unfold FakeDog.Reset
    rw [if_neg (not_not.mpr h)]
  · intro h ctx hstop
    unfold FakeDog.Reset FakeDog.startFeeding
    rw [if_pos h, hstop]
  · intro after hafter
    have harmed : after.status = WatchdogStatus.Armed ∧
        (swd.status ≠ WatchdogStatus.Armed → after.tasks.length = swd.tasks.length + 1) := by
      unfold FakeDog.Reset FakeDog.startFeeding at hafter
      by_cases h : swd.status ≠ WatchdogStatus.Armed
      · rw [if_pos h] at hafter
        cases hstop : swd.stop with
        | none => rw [hstop] at hafter; cases hafter
        | some ctx =>
          rw [hstop] at hafter
          simp only [Option.some.injEq] at hafter
          subst hafter
          exact ⟨rfl, fun _ => by simp⟩
      · rw [if_neg h] at hafter
        simp only [Option.some.injEq] at hafter
        subst hafter
        exact ⟨not_not.mp h, fun h2 => absurd h2 h⟩
    refine ⟨harmed.1, ?_, harmed.2⟩
    unfold FakeDog.Reset
    rw [if_neg (not_not.mpr harmed.1)]

/-- C14, on a fake watchdog that was disarmed: the first Reset cancels context 0, arms the
watchdog and starts one task on context 1; the second Reset changes nothing. -/
theorem C14_reset_idempotent_witness :
    FakeDog.Reset disarmedFakeDog =
        some { disarmedFakeDog with
          status := WatchdogStatus.Armed
          cancelled := [0, 0]
          contexts := 2
          stop := some 1
          tasks := [{ feedCtx := 0, period := 333333333 }, { feedCtx := 1, period := 333333333 }] } ∧
      (FakeDog.Reset disarmedFakeDog).bind FakeDog.Reset = FakeDog.Reset disarmedFakeDog := by
  have h := (C14_reset_idempotent disarmedFakeDog).2.1 (by decide) 0 rfl
  refine ⟨?_, ?_⟩
  · rw [h]; decide
  · rw [h, Option.some_bind]
    exact ((C14_reset_idempotent disarmedFakeDog).2.2 _ h).2.1

/-- C20: one keep-alive cycle of the fake watchdog never feeds a watchdog that is not Armed
and never changes the status. If the status is not Armed the cycle leaves the whole state
unchanged (no feed, `lastFoodTime` untouched); if it is Armed the cycle feeds once, sets
`lastFoodTime` to the current time when the feed succeeds (as the feed of the fake always
does), and on a feed failure leaves the state, hence status and `lastFoodTime`,
unchanged. -/
theorem C20_keep_alive_cycle (swd : synchronizedWatchdog) (now : Int) :
    (keepAliveCycle swd now).1.status = swd.status ∧
      (swd.status ≠ WatchdogStatus.Armed → keepAliveCycle swd now = (swd, 0)) ∧
      (swd.status = WatchdogStatus.Armed →
        (keepAliveCycle swd now).2 = 1 ∧
          (swd.impl.feed = none →
            (keepAliveCycle swd now).1 = { swd with lastFoodTime := now }) ∧
          (∀ err : String, swd.impl.feed = some err → (keepAliveCycle swd now).1 = swd)) ∧
      (∀ isStartSuccessful : Bool, (fakeWatchdogImpl isStartSuccessful).feed = none) := by
  refine ⟨?_, ?_, ?_, fun _ => rfl⟩
  · unfold keepAliveCycle
    by_cases h : swd.status ≠ WatchdogStatus.Armed
    · rw [if_pos h]
    · rw [if_neg h]
      cases swd.impl.feed <;> rfl
  · intro h
    unfold keepAliveCycle
    rw [if_pos h]
  · intro h
    unfold keepAliveCycle
    rw [if_neg (not_not.mpr h)]
    refine ⟨?_, ?_, ?_⟩
    · cases swd.impl.feed <;> rfl
    · intro hf; rw [hf]
    · intro err hf; rw [hf]

/-- C20, on a disarmed fake watchdog (nothing changes, no feed), on the same watchdog
armed (one feed, `lastFoodTime` updated) and on an armed watchdog whose feed fails (one
feed, nothing changes). -/
theorem C20_keep_alive_cycle_witness :
    keepAliveCycle disarmedFakeDog 1700000005000000000 = (disarmedFakeDog, 0) ∧
      keepAliveCycle { disarmedFakeDog with status := WatchdogStatus.Armed }
          1700000005000000000 =
        ({ disarmedFakeDog with
            status := WatchdogStatus.Armed, lastFoodTime := 1700000005000000000 }, 1) ∧
      (keepAliveCycle failingFeedDog 1700000005000000000).1 = failingFeedDog := by
  refine ⟨(C20_keep_alive_cycle disarmedFakeDog 1700000005000000000).2.1 (by decide), ?_,
    ((C20_keep_alive_cycle failingFeedDog 1700000005000000000).2.2.1 rfl).2.2
      "write failed" rfl⟩
  decide

/-! ## The configuration controller -/

/-- C16: for every reconcile request whose name is not "self-node-config" or whose
namespace is not the operator's namespace, `Reconcile` returns an empty result and no
error without reading the config, syncing certificates or touching the daemonset: it makes
no call at all, whatever the collaborators would answer. -/
theorem C16_reconcile_ignores_other_requests (r : SelfNodeRemediationConfigReconciler)
    (answers : ReconcileAnswers) (req : Request)
    (hOther : req.Name ≠ "self-node-config" ∨ req.Namespace ≠ r.Namespace) :
    Reconcile r answers req = ({ Requeue := false, RequeueAfter := 0 }, none, []) := by
  have h : req.Name ≠ ConfigCRName ∨ req.Namespace ≠ r.Namespace := hOther
  unfold Reconcile
  rw [if_pos h]

/-- C16, for the configuration of the controller test named "not-the-expected-name" in the
operator's namespace, and for the expected name in another namespace: nothing is called.
The expected name in the operator's namespace is reconciled. -/
theorem C16_reconcile_ignores_other_requests_witness :
    Reconcile exampleReconciler exampleAnswers
        { Name := "not-the-expected-name", Namespace := "self-node-remediation" } =
        ({}, none, []) ∧
      Reconcile exampleReconciler exampleAnswers
        { Name := "self-node-config", Namespace := "default" } = ({}, none, []) ∧
      Reconcile exampleReconciler exampleAnswers
        { Name := "self-node-config", Namespace := "self-node-remediation" } =
        ({}, none,
          [ReconcileCall.getConfig, ReconcileCall.syncCerts, ReconcileCall.syncConfigDaemonSet]) :=
  ⟨C16_reconcile_ignores_other_requests exampleReconciler exampleAnswers
      { Name := "not-the-expected-name", Namespace := "self-node-remediation" }
      (Or.inl (by decide)),
    C16_reconcile_ignores_other_requests exampleReconciler exampleAnswers
      { Name := "self-node-config", Namespace := "default" } (Or.inr (by decide)),
    by decide⟩

/-! ## Round trip of the floor -/

theorem inInt64_wrapInt64 (x : Int) : inInt64 (wrapInt64 x) := by
  unfold inInt64 minInt64 maxInt64 wrapInt64
  omega

/-- The cluster `calcMinTimeAssumeRebooted` leaves in agent role is the one persisting the
stored floor leaves. -/
theorem calcMinTimeAssumeRebooted_cluster (toSeconds : Int → Int) (s : safeTimeCalculator)
    (c : Cluster) (hAgent : s.isAgent = true) :
    (calcMinTimeAssumeRebooted toSeconds s c).cluster =
      (manageSafeRebootTimeInConfiguration toSeconds c
        (calcMinTimeAssumeRebooted toSeconds s c).calculator.minTimeToAssumeNodeRebooted).cluster := by
  unfold calcMinTimeAssumeRebooted
  simp only [hAgent, Bool.not_true, Bool.false_eq_true, if_false]

/-- When the floor to store differs from the stored one, a failing patch makes
`manageSafeRebootTimeInConfiguration` fail. -/
theorem manageSafeRebootTimeInConfiguration_patch_error (toSeconds : Int → Int) (c : Cluster)
    (minTime : Int) (config : SelfNodeRemediationConfig)
    (rest : List SelfNodeRemediationConfig) (e : String)
    (hConfigs : c.configs = .ok (config :: rest)) (hPatch : c.patchError = some e)
    (hChange : (useSaferValue (toSeconds minTime) config
        c.now).Status.MinSafeTimeToAssumeNodeRebootedSeconds ≠
      config.Status.MinSafeTimeToAssumeNodeRebootedSeconds) :
    (manageSafeRebootTimeInConfiguration toSeconds c minTime).err = some e := by
  have hget : getConfig c = .ok config := by
    unfold getConfig
    rw [hConfigs]
  have hne : manageCondition (toSeconds minTime)
      (useSaferValue (toSeconds minTime) config c.now) c.now ≠ config := by
    intro h
    apply hChange
    have h2 := congrArg (fun x => x.Status.MinSafeTimeToAssumeNodeRebootedSeconds) h
    exact h2
  unfold manageSafeRebootTimeInConfiguration
  simp only [hget, if_pos hne, hPatch]

/-- The observer's getter on a configuration with a positive stored floor. -/
theorem GetTimeToAssumeNodeRebooted_observer_ok (s : safeTimeCalculator) (c : Cluster)
    (config : SelfNodeRemediationConfig) (rest : List SelfNodeRemediationConfig)
    (hObserver : s.isAgent = false) (hConfigs : c.configs = .ok (config :: rest))
    (hPos : config.Status.MinSafeTimeToAssumeNodeRebootedSeconds > 0) :
    (GetTimeToAssumeNodeRebooted s c).2 =
      (max (mul64 config.Spec.SafeTimeToAssumeNodeRebootedSeconds Second)
        (mul64 config.Status.MinSafeTimeToAssumeNodeRebootedSeconds Second), none) := by
  unfold GetTimeToAssumeNodeRebooted getConfig getMinSafeTimeSecFromConfig
  simp only [hObserver, hConfigs, Bool.not_false, if_true, if_pos hPos]
  by_cases h : mul64 config.Spec.SafeTimeToAssumeNodeRebootedSeconds Second <
      mul64 config.Status.MinSafeTimeToAssumeNodeRebootedSeconds Second
  · rw [if_pos h, max_eq_right (le_of_lt h)]
  · rw [if_neg h, max_eq_left (not_lt.mp h)]

/-- C15 (as stated) fails: an agent whose Start succeeds against a configuration with no
stored floor computes the floor 127.5s; the resource stores whole seconds, so the observer
reads back 127s, not the floor the agent computed, and returns `max(60s, 127s) = 127s`
instead of `max(60s, 127.5s)`. -/
theorem C15_counterexample :
    fractionalAgent.isAgent = true ∧
      freshShortSafeTimeConfig.Status.MinSafeTimeToAssumeNodeRebootedSeconds = 0 ∧
      (Start truncSeconds fractionalAgent freshShortSafeTimeCluster).err = none ∧
      (Start truncSeconds fractionalAgent
        freshShortSafeTimeCluster).calculator.minTimeToAssumeNodeRebooted = 127500000000 ∧
      (GetTimeToAssumeNodeRebooted NewManagerSafeTimeCalculator
        (Start truncSeconds fractionalAgent freshShortSafeTimeCluster).cluster).2 =
          (127000000000, none) ∧
      (127000000000 : Int) ≠ max (60 * Second) 127500000000 := by
  decide

/-- C15 (amended): round trip for a floor of a positive whole number of seconds and a
configured safe time that is a representable duration. For every agent-role calculator
whose Start succeeds against a configuration resource with no previously stored floor,
whose computed floor is `k` seconds, `k > 0` (so that `int(floor.Seconds())` is `k`), and
whose resource has a configured `Spec` safe time of `Spec` seconds that fits an `int64`
duration, an observer-role calculator reading the resource afterwards reads back the floor
the agent computed and gets, from `GetTimeToAssumeNodeRebooted`, no error and
`max(Spec seconds, that floor)`. -/
theorem C15_round_trip_whole_seconds (toSeconds : Int → Int) (s observer : safeTimeCalculator)
    (c : Cluster) (config : SelfNodeRemediationConfig)
    (rest : List SelfNodeRemediationConfig) (k : Int)
    (hAgent : s.isAgent = true) (hObserver : observer.isAgent = false)
    (hConfigs : c.configs = .ok (config :: rest))
    (hNoFloor : config.Status.MinSafeTimeToAssumeNodeRebootedSeconds = 0)
    (hSpec : inInt64 (config.Spec.SafeTimeToAssumeNodeRebootedSeconds * Second))
    (hStart : (Start toSeconds s c).err = none)
    (hWhole : (Start toSeconds s c).calculator.minTimeToAssumeNodeRebooted = k * Second)
    (hSeconds : toSeconds (k * Second) = k) (hPos : 0 < k) :
    (∃ stored : SelfNodeRemediationConfig,
        (Start toSeconds s c).cluster.configs = .ok (stored :: rest) ∧
        getMinSafeTimeSecFromConfig stored =
          .ok (Start toSeconds s c).calculator.minTimeToAssumeNodeRebooted) ∧
      (GetTimeToAssumeNodeRebooted observer (Start toSeconds s c).cluster).2 =
        (max (config.Spec.SafeTimeToAssumeNodeRebootedSeconds * Second)
          (Start toSeconds s c).calculator.minTimeToAssumeNodeRebooted, none) := by
  unfold Start at hStart hWhole ⊢
  have hcl := calcMinTimeAssumeRebooted_cluster toSeconds s c hAgent
  have herr := calcMinTimeAssumeRebooted_err toSeconds s c hAgent
  have hin : inInt64 (k * Second) := by
    rw [← hWhole, calcMinTimeAssumeRebooted_floor toSeconds s c hAgent]
    exact inInt64_wrapInt64 _
  rw [hWhole] at hcl herr ⊢
  rw [herr] at hStart
  have hfloor : (useSaferValue (toSeconds (k * Second)) config
      c.now).Status.MinSafeTimeToAssumeNodeRebootedSeconds = k := by
    rw [useSaferValue_floor, hSeconds, hNoFloor, if_pos (Or.inl hPos)]
  have hpatch : c.patchError = none := by
    cases hp : c.patchError with
    | none => rfl
    | some e =>
      have := manageSafeRebootTimeInConfiguration_patch_error toSeconds c (k * Second) config
        rest e hConfigs hp (by rw [hfloor, hNoFloor]; exact ne_of_gt hPos)
      rw [this] at hStart
      cases hStart
  obtain ⟨final, _, _, h3, _, h5⟩ :=
    manageSafeRebootTimeInConfiguration_outcome toSeconds c (k * Second) config rest hConfigs
  obtain ⟨stored, g1, g2, g3, _⟩ := h5 hpatch
  rw [h3, hfloor] at g3
  rw [← hcl] at g1
  have hmul : mul64 k Second = k * Second := by
    unfold mul64
    exact wrapInt64_of_inInt64 hin
  have hmulSpec : mul64 config.Spec.SafeTimeToAssumeNodeRebootedSeconds Second =
      config.Spec.SafeTimeToAssumeNodeRebootedSeconds * Second := by
    unfold mul64
    exact wrapInt64_of_inInt64 hSpec
  refine ⟨⟨stored, g1, ?_⟩, ?_⟩
  · unfold getMinSafeTimeSecFromConfig
    simp only [g3, if_pos hPos, hmul]
  · rw [GetTimeToAssumeNodeRebooted_observer_ok observer _ stored rest hObserver g1
      (by rw [g3]; exact hPos), g2, g3, hmul, hmulSpec]

/-- C15 (amended), for the default agent, whose floor is 126s, and a configuration with a
configured safe time of 180s and no stored floor: the observer gets 180s and no error. -/
theorem C15_round_trip_whole_seconds_witness :
    (Start truncSeconds exampleAgent exampleCluster).err = none ∧
      (GetTimeToAssumeNodeRebooted NewManagerSafeTimeCalculator
        (Start truncSeconds exampleAgent exampleCluster).cluster).2 = (180 * Second, none) := by
  refine ⟨by decide, ?_⟩
  rw [(C15_round_trip_whole_seconds truncSeconds exampleAgent NewManagerSafeTimeCalculator
    exampleCluster exampleConfig [] 126 rfl rfl rfl rfl (by decide) (by decide) (by decide)
    (by decide) (by decide)).2]
  decide

/-- C17 (the code at the failing input): the agent floor 127.5s is persisted into a
resource with no prior floor and a configured safe time of 60s; `int(minTime.Seconds())`
truncates it to 127, and the observer's `GetTimeToAssumeNodeRebooted` returns 127s, below
the floor the agent computed (the agent's own getter returns 127.5s). -/
theorem C17_observer_below_agent_floor :
    freshShortSafeTimeConfig.Status.MinSafeTimeToAssumeNodeRebootedSeconds = 0 ∧
      truncSeconds 127500000000 = 127 ∧
      (manageSafeRebootTimeInConfiguration truncSeconds freshShortSafeTimeCluster
        127500000000).err = none ∧
      (GetTimeToAssumeNodeRebooted NewManagerSafeTimeCalculator
        (manageSafeRebootTimeInConfiguration truncSeconds freshShortSafeTimeCluster
          127500000000).cluster).2 = (127000000000, none) ∧
      (127000000000 : Int) < 127500000000 ∧
      (GetTimeToAssumeNodeRebooted
        (Start truncSeconds fractionalAgent freshShortSafeTimeCluster).calculator
        (Start truncSeconds fractionalAgent freshShortSafeTimeCluster).cluster).2 =
          (127500000000, none) := by
  decide

/-! ## Writing the resource -/

/-- The local `config` of `manageSafeRebootTimeInConfiguration` differs from the fetched
resource exactly when the floor or the list of conditions differs. -/
theorem managed_config_ne_iff (n : Int) (config : SelfNodeRemediationConfig) (now : Int) :
    manageCondition n (useSaferValue n config now) now ≠ config ↔
      ((useSaferValue n config now).Status.MinSafeTimeToAssumeNodeRebootedSeconds ≠
          config.Status.MinSafeTimeToAssumeNodeRebootedSeconds ∨
        SetStatusCondition config.Status.Conditions
          (if isSafeTimeOverridden n config then overriddenCondition else validCondition) now ≠
          config.Status.Conditions) := by
  obtain ⟨f1, f2, f3, f4⟩ := useSaferValue_frame n config now
  have hov : isSafeTimeOverridden n (useSaferValue n config now) =
      isSafeTimeOverridden n config := by
    unfold isSafeTimeOverridden
    rw [f1]
  have hshape : manageCondition n (useSaferValue n config now) now =
      { Name := config.Name
        Spec := config.Spec
        Status :=
          { MinSafeTimeToAssumeNodeRebootedSeconds :=
              (useSaferValue n config now).Status.MinSafeTimeToAssumeNodeRebootedSeconds
            LastUpdateTime := config.Status.LastUpdateTime
            Conditions :=
              SetStatusCondition config.Status.Conditions
                (if isSafeTimeOverridden n config then overriddenCondition
                  else validCondition) now } } := by
    unfold manageCondition
    rw [hov, f1, f2, f3]
    simp only [f4]
  rw [hshape]
  obtain ⟨name, spec, ⟨floor, lastUpdate, conditions⟩⟩ := config
  simp only [ne_eq, SelfNodeRemediationConfig.mk.injEq, SelfNodeRemediationConfigStatus.mk.injEq,
    true_and, and_true, not_and_or]

theorem floorOrConditionDiffers_iff (n : Int) (config : SelfNodeRemediationConfig) (now : Int) :
    manageCondition n (useSaferValue n config now) now ≠ config ↔
      floorOrConditionDiffers n config now := by
  rw [managed_config_ne_iff, useSaferValue_floor]
  unfold floorOrConditionDiffers
  by_cases h : n > config.Status.MinSafeTimeToAssumeNodeRebootedSeconds ∨
      (¬ recentlyUpdated config now ∧ n ≠ config.Status.MinSafeTimeToAssumeNodeRebootedSeconds)
  · rw [if_pos h]
    simp only [h, true_and]
  · rw [if_neg h]
    simp only [h, false_and, ne_eq, not_true_eq_false]

/-- C21: `manageSafeRebootTimeInConfiguration` writes the resource exactly when something
changed. If neither the stored floor nor the warning condition differs from the fetched
resource, no patch is issued, no error is returned and the resource, with its
`LastUpdateTime`, is left as it was. If either differs, `LastUpdateTime` of the patched
object is set to the current time and the status patch is issued (once), whose error, if
any, is returned to the caller; when the patch succeeds the cluster holds the patched
resource, its `LastUpdateTime` being the current time at whole seconds, and when it fails
the cluster is unchanged. -/
theorem C21_patch_exactly_on_change (toSeconds : Int → Int) (c : Cluster) (minTime : Int)
    (config : SelfNodeRemediationConfig) (rest : List SelfNodeRemediationConfig)
    (hConfigs : c.configs = .ok (config :: rest)) :
    (¬ floorOrConditionDiffers (toSeconds minTime) config c.now →
        (manageSafeRebootTimeInConfiguration toSeconds c minTime).patchIssued = false ∧
        (manageSafeRebootTimeInConfiguration toSeconds c minTime).err = none ∧
        (manageSafeRebootTimeInConfiguration toSeconds c minTime).config = some config ∧
        (manageSafeRebootTimeInConfiguration toSeconds c minTime).cluster = c) ∧
      (floorOrConditionDiffers (toSeconds minTime) config c.now →
        (manageSafeRebootTimeInConfiguration toSeconds c minTime).patchIssued = true ∧
        (manageSafeRebootTimeInConfiguration toSeconds c minTime).err = c.patchError ∧
        (∃ final : SelfNodeRemediationConfig,
          (manageSafeRebootTimeInConfiguration toSeconds c minTime).config = some final ∧
          final.Status.LastUpdateTime = some c.now ∧
          (c.patchError = none →
            ∃ stored : SelfNodeRemediationConfig,
              (manageSafeRebootTimeInConfiguration toSeconds c minTime).cluster.configs =
                .ok (stored :: rest) ∧
              stored = storedCopy final ∧
              stored.Status.LastUpdateTime = some (c.now - c.now % Second) ∧
              stored.Status.MinSafeTimeToAssumeNodeRebootedSeconds =
                final.Status.MinSafeTimeToAssumeNodeRebootedSeconds)) ∧
        (∀ e : String, c.patchError = some e →
          (manageSafeRebootTimeInConfiguration toSeconds c minTime).cluster = c)) := by
  have hget : getConfig c = .ok config := by
    unfold getConfig
    rw [hConfigs]
  have hiff := floorOrConditionDiffers_iff (toSeconds minTime) config c.now
  constructor
  · intro hsame
    have heq : manageCondition (toSeconds minTime)
        (useSaferValue (toSeconds minTime) config c.now) c.now = config :=
      not_not.mp (fun h => hsame (hiff.mp h))
    unfold manageSafeRebootTimeInConfiguration
    simp only [hget, heq, ne_eq, not_true_eq_false, if_false, and_self]
  · intro hdiff
    have hne := hiff.mpr hdiff
    unfold manageSafeRebootTimeInConfiguration
    simp only [hget, if_pos hne]
    cases hp : c.patchError with
    | some e =>
      refine ⟨rfl, rfl, ⟨_, rfl, rfl, ?_⟩, fun _ _ => rfl⟩
      intro h
      cases h
    | none =>
      refine ⟨rfl, rfl, ⟨_, rfl, rfl, ?_⟩, ?_⟩
      · intro _
        refine ⟨storedCopy (stampLastUpdateTime (manageCondition (toSeconds minTime)
          (useSaferValue (toSeconds minTime) config c.now) c.now) c.now), ?_, rfl, rfl, rfl⟩
        unfold Cluster.patched
        simp only [hConfigs]
      · intro e h
        cases h

set_option maxRecDepth 8000 in
/-- C21, on a resource without a stored floor a third of a second after a whole second (the
floor 126s is written: one patch, the patched object carries the current time and the
resource the whole second) and on the resulting resource one minute later with the same
floor (nothing differs: no patch, `LastUpdateTime` is the earlier time). -/
theorem C21_patch_exactly_on_change_witness :
    (manageSafeRebootTimeInConfiguration truncSeconds midSecondCluster (126 * Second)).patchIssued =
        true ∧
      (manageSafeRebootTimeInConfiguration truncSeconds midSecondCluster (126 * Second)).config.map
        (fun config => config.Status.LastUpdateTime) = some (some 1700000000333333333) ∧
      (getConfig (manageSafeRebootTimeInConfiguration truncSeconds midSecondCluster
          (126 * Second)).cluster).toOption.map
        (fun config => config.Status.LastUpdateTime) = some (some 1700000000000000000) ∧
      (manageSafeRebootTimeInConfiguration truncSeconds settledCluster (126 * Second)).patchIssued =
        false ∧
      (manageSafeRebootTimeInConfiguration truncSeconds settledCluster (126 * Second)).config.map
        (fun config => config.Status.LastUpdateTime) = some (some 1700000000000000000) := by
  have h1 := (C21_patch_exactly_on_change truncSeconds midSecondCluster (126 * Second)
    exampleConfig [] rfl).2 (by decide)
  have h2 := (C21_patch_exactly_on_change truncSeconds settledCluster (126 * Second)
    (storedCopy (stampLastUpdateTime (manageCondition 126 (useSaferValue 126 exampleConfig
      1700000000000000000) 1700000000000000000) 1700000000000000000)) [] rfl).1
    (by decide)
  obtain ⟨final, g1, g2, g3⟩ := h1.2.2.1
  obtain ⟨stored, k1, _, k3, _⟩ := g3 rfl
  refine ⟨h1.1, ?_, ?_, h2.1, ?_⟩
  · rw [g1, Option.map_some', g2]
    rfl
  · unfold getConfig
    rw [k1]
    simp only [Except.toOption, Option.map_some', k3]
    decide
  · rw [h2.2.2.1]
    decide

/-! ## The healthy family -/

/-- C23 (as stated) fails: `HealthyBecauseNoPeersResponseNotReachedMaxAttempts` is one of
the `Healthy*` reasons of `peers/response.go`, but it is not a case of the `switch`; with
`IsHealthy` set, the diagnostics passing and `isOtherMastersCanBeReached = true`,
`IsMasterHealthy` takes the default branch and returns false. -/
theorem C23_counterexample :
    isDiagnosticsPassed exampleManager passingProbesDrawZero = some (true, none) ∧
      IsMasterHealthy exampleManager passingProbesDrawZero
        { IsHealthy := true, Reason := HealthyBecauseNoPeersResponseNotReachedMaxAttempts }
        true = some false := by
  decide

/-- C23 (amended): every verdict whose reason is one of the four `Healthy*` reasons of the
decision table (`HealthyBecauseCRNotFound`, `HealthyBecauseErrorsThresholdNotReached`,
`HealthyBecauseMostPeersCantAccessAPIServer`, `HealthyBecauseNoPeersWereFound`) is cleared
when nothing else is wrong: with the local diagnostics passing and
`isOtherMastersCanBeReached = true`, `IsMasterHealthy` returns true, whatever the
`IsHealthy` field. -/
theorem C23_handled_healthy_reasons_cleared (manager : Manager) (probes : Probes)
    (response : Response) (err : Option String)
    (hReason : response.Reason = HealthyBecauseCRNotFound ∨
      response.Reason = HealthyBecauseErrorsThresholdNotReached ∨
      response.Reason = HealthyBecauseMostPeersCantAccessAPIServer ∨
      response.Reason = HealthyBecauseNoPeersWereFound)
    (hDiagnostics : isDiagnosticsPassed manager probes = some (true, err)) :
    IsMasterHealthy manager probes response true = some true := by
  unfold IsMasterHealthy
  rcases hReason with h | h | h | h
  · rw [h, if_neg (by decide), if_neg (by decide), if_pos (Or.inr rfl)]
  · rw [h, if_neg (by decide), if_neg (by decide), if_pos (Or.inl rfl)]
  · rw [h, if_neg (by decide), if_neg (by decide), if_neg (by decide), if_pos rfl, hDiagnostics]
  · rw [h, if_neg (by decide), if_neg (by decide), if_neg (by decide), if_neg (by decide),
      if_pos rfl, hDiagnostics]
    rfl

/-- C23 (amended), for the reasons "most peers cannot access the API server" and "no peers
were found" when both probes pass and the draw is 0: true. -/
theorem C23_handled_healthy_reasons_cleared_witness :
    IsMasterHealthy exampleManager passingProbesDrawZero
        { IsHealthy := true, Reason := HealthyBecauseMostPeersCantAccessAPIServer } true =
        some true ∧
      IsMasterHealthy exampleManager passingProbesDrawZero
        { IsHealthy := true, Reason := HealthyBecauseNoPeersWereFound } true = some true :=
  ⟨C23_handled_healthy_reasons_cleared exampleManager passingProbesDrawZero
      { IsHealthy := true, Reason := HealthyBecauseMostPeersCantAccessAPIServer } none
      (Or.inr (Or.inr (Or.inl rfl))) (by decide),
    C23_handled_healthy_reasons_cleared exampleManager passingProbesDrawZero
      { IsHealthy := true, Reason := HealthyBecauseNoPeersWereFound } none
      (Or.inr (Or.inr (Or.inr rfl))) (by decide)⟩

/-! ## Daemonset tolerations -/

/-- On an object whose tolerations are a list, `updateTolerationOnDs` panics for every
toleration: the entry it appends holds the operator, the effect and the toleration seconds
with their Go types, which `runtime.DeepCopyJSONValue` (in `SetNestedField`) does not
copy. -/
theorem updateTolerationOnDs_list (ds : Unstructured) (toleration : Toleration)
    (entries : List TolerationEntry) (hList : ds.tolerations = .list entries) :
    updateTolerationOnDs ds toleration = none := by
  unfold updateTolerationOnDs SetNestedField DeepCopyJSONValue
  simp [hList, List.all_append, FieldValue.isJSONValue]

/-- With at least one custom toleration and a first object whose tolerations are a list,
`updateDsTolerations` panics. -/
theorem updateDsTolerations_list (ds : Unstructured) (objs : List Unstructured)
    (toleration : Toleration) (tolerations : List Toleration)
    (entries : List TolerationEntry) (hList : ds.tolerations = .list entries) :
    updateDsTolerations (ds :: objs) (toleration :: tolerations) = none := by
  unfold updateDsTolerations updateEachToleration updateTolerationOnAll
  simp [updateTolerationOnDs_list ds toleration entries hList]

/-- With no custom toleration `updateDsTolerations` returns no error and leaves every
object unchanged. -/
theorem updateDsTolerations_nil (objs : List Unstructured) :
    updateDsTolerations objs [] = some (objs, none) := by
  unfold updateDsTolerations
  simp

/-- C22 (the code at the failing input): one rendered daemonset whose
`spec.template.spec.tolerations` is a list of three entries and the custom toleration of the
controller test (key "dummyTolerationKey", operator Equal, effect NoExecute).
`updateDsTolerations` does not return: `updateTolerationOnDs` panics in `SetNestedField`,
so no object gets a fourth toleration. With no custom toleration the object is unchanged
and no error is returned. -/
theorem C22_custom_toleration_panics :
    renderedDaemonSet.tolerations = .list renderedTolerations ∧
      renderedTolerations.length = 3 ∧
      updateTolerationOnDs renderedDaemonSet dummyToleration = none ∧
      updateDsTolerations [renderedDaemonSet] [dummyToleration] = none ∧
      updateDsTolerations [renderedDaemonSet] [] = some ([renderedDaemonSet], none) := by
  decide

end SelfNodeRemediation
